import Mathlib

/-!
Verification of the SwingTrend engine (`src/swingtrend/Swing.py`).

The mutable `Swing` object is embedded as the structure `SwingState`; prices
are rationals; timestamps are naturals.  Python truthiness on optional floats
(`if self.sph:`) is embedded as `truthyQ` (false for `None` and for `0`).
`identify` is embedded phase by phase, following the source's three top-level
branches (`trend is None`, `trend == "UP"`, `trend == "DOWN"`), with the
pivot-pending update block, the breakout block and the formation/reversal
block as separate definitions composed exactly as the source composes them.
Callback invocations are recorded as an event list (an event is appended
exactly when the corresponding hook is registered); the `ValueError` /
`KeyError` raised by the plotting helper `__line_end_dt` is an `Option
String` error slot that aborts the bar, leaving the state as mutated so far,
mirroring in-place mutation followed by an exception.
-/

namespace SwingTrend

inductive Trend where
  | UP : Trend
  | DOWN : Trend
  deriving DecidableEq, Repr

structure Bar where
  dt : Nat
  high : ℚ
  low : ℚ
  close : ℚ
  deriving DecidableEq, Repr

/-- Python truthiness of an optional float: `None` and `0.0` are falsy,
every other value is truthy.  This is the semantics of `if self.sph:`,
`if self.coc and ...`, `if self.high and ...`, `if self.retrace_threshold
and ...` in the source. -/
def truthyQ : Option ℚ → Bool
  | none => false
  | some v => v != 0

/-- A recorded callback invocation.  `breakout sym dt trend close pivot coc`
mirrors `on_breakout(self.symbol, dt, self.trend, close, sph, self.coc)`;
`reversal sym dt trend close coc priceLevel` mirrors
`on_reversal(self.symbol, dt, self.trend, close, self.coc, price_level)`. -/
inductive Event where
  | breakout : Option String → Nat → Option Trend → ℚ → Option ℚ → Option ℚ → Event
  | reversal : Option String → Nat → Option Trend → ℚ → Option ℚ → Option ℚ → Event
  deriving DecidableEq, Repr

def Event.isBreakout : Event → Bool
  | .breakout _ _ _ _ _ _ => true
  | .reversal _ _ _ _ _ _ => false

def Event.isReversal : Event → Bool
  | .breakout _ _ _ _ _ _ => false
  | .reversal _ _ _ _ _ _ => true

/-- The whole mutable state of a `Swing` object (logger omitted; the two
callback hooks are kept as booleans recording whether a hook is set). -/
structure SwingState where
  trend : Option Trend := none
  high : Option ℚ := none
  low : Option ℚ := none
  coc : Option ℚ := none
  sph : Option ℚ := none
  spl : Option ℚ := none
  high_dt : Option Nat := none
  low_dt : Option Nat := none
  coc_dt : Option Nat := none
  sph_dt : Option Nat := none
  spl_dt : Option Nat := none
  retrace_threshold : Option ℚ := none
  sideways_threshold : Int := 20
  symbol : Option String := none
  bars_since : Nat := 0
  plot : Bool := false
  df : Option (List Nat) := none
  plot_lines : List ((Option Nat × Option ℚ) × (Nat × Option ℚ)) := []
  plot_colors : List String := []
  on_breakout : Bool := false
  on_reversal : Bool := false
  deriving DecidableEq, Repr

/-- Result of processing one bar: the new state, the recorded callback
invocations, and the exception message when the bar raised. -/
structure StepResult where
  state : SwingState
  events : List Event
  err : Option String
  deriving DecidableEq, Repr

/-- `Swing.__init__(retrace_threshold_pct, sideways_threshold, debug)`:
`if retrace_threshold_pct: self.retrace_threshold = retrace_threshold_pct / 100`. -/
def Swing.init (retrace_threshold_pct : Option ℚ) (sideways_threshold : Int) : SwingState :=
  { retrace_threshold :=
      if truthyQ retrace_threshold_pct then some (retrace_threshold_pct.getD 0 / 100) else none
    sideways_threshold := sideways_threshold }

/-- `Swing.is_sideways`: `self.__bars_since > self.sideways_threshold`. -/
def is_sideways (s : SwingState) : Bool :=
  (s.bars_since : Int) > s.sideways_threshold

/-- `Swing.__line_end_dt`: raises `ValueError("DataFrame not found.")` when no
DataFrame is bound, `KeyError` when the timestamp is not in the bound index;
otherwise returns the index entry 15 slots later, clamped to the last one. -/
def line_end_dt (df : Option (List Nat)) (dt : Option Nat) : Except String Nat :=
  match df with
  | none => .error "DataFrame not found."
  | some index =>
    match dt with
    | none => .error "KeyError"
    | some d =>
      match index.findIdx? (fun x => x = d) with
      | none => .error "KeyError"
      | some i => .ok (index.getD (min (i + 15) (index.length - 1)) 0)

/-- The shared body of every `if self.plot:` block in the source: look up the
line end timestamp from `self.coc_dt` (which may raise), then append the line
`((coc_dt, coc), (line_end_dt, coc))` and the given color. -/
def plotStep (s : SwingState) (color : String) : SwingState × Option String :=
  if s.plot then
    match line_end_dt s.df s.coc_dt with
    | .error e => (s, some e)
    | .ok endDt =>
      ({ s with
          plot_lines := s.plot_lines ++ [((s.coc_dt, s.coc), (endDt, s.coc))]
          plot_colors := s.plot_colors ++ [color] }, none)
  else (s, none)

/-- `Swing.__switch_downtrend(dt, low)`. -/
def switch_downtrend (s : SwingState) (dt : Nat) (low : ℚ) : SwingState × Option String :=
  plotStep
    { s with
        trend := some .DOWN
        coc := s.high
        coc_dt := s.high_dt
        high := none
        sph := none
        sph_dt := none
        low := some low
        low_dt := some dt
        bars_since := 0 } "r"

/-- `Swing.__switch_uptrend(dt, high)`. -/
def switch_uptrend (s : SwingState) (dt : Nat) (high : ℚ) : SwingState × Option String :=
  plotStep
    { s with
        trend := some .UP
        coc := s.low
        coc_dt := s.low_dt
        low := none
        spl := none
        spl_dt := none
        high := some high
        high_dt := some dt
        bars_since := 0 } "g"

/-- The update block at the top of the `if self.sph:` branch of `identify`:
increment `__bars_since`, widen `high` upward (truthiness-guarded) and `low`
downward (`None`-guarded). -/
def upPendingUpdate (s : SwingState) (b : Bar) : SwingState :=
  let s1 := { s with bars_since := s.bars_since + 1 }
  let s2 :=
    if truthyQ s1.high ∧ b.high > s1.high.getD 0 then
      { s1 with high := some b.high, high_dt := some b.dt }
    else s1
  if s2.low = none ∨ b.low < s2.low.getD 0 then
    { s2 with low := some b.low, low_dt := some b.dt }
  else s2

/-- The `close > self.sph` breakout block of the UP branch: compute
`retrace_pct = (self.low - self.sph) / self.sph`, clear the pivot, reset the
bar counter; suppress when a truthy retrace threshold exceeds
`abs(retrace_pct)`; otherwise move `coc` to the tracked low, run the plot
block, and record `on_breakout`. -/
def upBreakout (s : SwingState) (b : Bar) : StepResult :=
  let retrace_pct := (s.low.getD 0 - s.sph.getD 0) / s.sph.getD 0
  let sphOld := s.sph
  let s1 := { s with sph := none, sph_dt := none, bars_since := 0 }
  if truthyQ s1.retrace_threshold ∧ |retrace_pct| < s1.retrace_threshold.getD 0 then
    ⟨s1, [], none⟩
  else
    let s2 := { s1 with coc := s1.low, coc_dt := s1.low_dt }
    let pr := plotStep s2 "g"
    match pr.2 with
    | some e => ⟨pr.1, [], some e⟩
    | none =>
      ⟨pr.1,
        if pr.1.on_breakout then
          [.breakout pr.1.symbol b.dt pr.1.trend b.close sphOld pr.1.coc]
        else [],
        none⟩

/-- The formation / reversal-watch part of the UP branch (source lines
following the pending-pivot block): on a new tracked high, move both
trackers to this bar; otherwise form a pivot when `self.sph is None`, widen
the low tracker (incrementing the bar counter), and finally reverse when
`self.coc` is truthy and `close < self.coc`. -/
def upFormation (s : SwingState) (b : Bar) : StepResult :=
  if truthyQ s.high ∧ b.high > s.high.getD 0 then
    ⟨{ s with high := some b.high, high_dt := some b.dt, low := some b.low, low_dt := some b.dt },
      [], none⟩
  else
    let s1 :=
      if s.sph = none then
        { s with sph := s.high, sph_dt := s.high_dt, low := none, low_dt := none, bars_since := 0 }
      else s
    let s2 :=
      if s1.low = none ∨ b.low < s1.low.getD 0 then
        { s1 with low := some b.low, low_dt := some b.dt, bars_since := s1.bars_since + 1 }
      else s1
    if truthyQ s2.coc ∧ b.close < s2.coc.getD 0 then
      let priceLevel := s2.coc
      let pr := switch_downtrend s2 b.dt b.low
      match pr.2 with
      | some e => ⟨pr.1, [], some e⟩
      | none =>
        ⟨pr.1,
          if pr.1.on_reversal then
            [.reversal pr.1.symbol b.dt pr.1.trend b.close pr.1.coc priceLevel]
          else [],
          none⟩
    else ⟨s2, [], none⟩

/-- The whole `if self.trend == "UP":` branch of `identify`. -/
def identifyUp (s : SwingState) (b : Bar) : StepResult :=
  if truthyQ s.sph then
    let s3 := upPendingUpdate s b
    if b.close > s3.sph.getD 0 then upBreakout s3 b else upFormation s3 b
  else upFormation s b

/-- The update block at the top of the `if self.spl:` branch: increment
`__bars_since`, widen `low` downward (truthiness-guarded) and `high` upward
(`None`-guarded). -/
def downPendingUpdate (s : SwingState) (b : Bar) : SwingState :=
  let s1 := { s with bars_since := s.bars_since + 1 }
  let s2 :=
    if truthyQ s1.low ∧ b.low < s1.low.getD 0 then
      { s1 with low := some b.low, low_dt := some b.dt }
    else s1
  if s2.high = none ∨ b.high > s2.high.getD 0 then
    { s2 with high := some b.high, high_dt := some b.dt }
  else s2

/-- The `close < self.spl` breakout block of the DOWN branch.  Note the
source suppresses on `retrace_pct < self.retrace_threshold` (signed, no
`abs`, unlike the UP branch). -/
def downBreakout (s : SwingState) (b : Bar) : StepResult :=
  let retrace_pct := (s.high.getD 0 - s.spl.getD 0) / s.spl.getD 0
  let splOld := s.spl
  let s1 := { s with spl := none, spl_dt := none, bars_since := 0 }
  if truthyQ s1.retrace_threshold ∧ retrace_pct < s1.retrace_threshold.getD 0 then
    ⟨s1, [], none⟩
  else
    let s2 := { s1 with coc := s1.high, coc_dt := s1.high_dt }
    let pr := plotStep s2 "r"
    match pr.2 with
    | some e => ⟨pr.1, [], some e⟩
    | none =>
      ⟨pr.1,
        if pr.1.on_breakout then
          [.breakout pr.1.symbol b.dt pr.1.trend b.close splOld pr.1.coc]
        else [],
        none⟩

/-- The formation / reversal-watch part of the DOWN branch. -/
def downFormation (s : SwingState) (b : Bar) : StepResult :=
  if truthyQ s.low ∧ b.low < s.low.getD 0 then
    ⟨{ s with low := some b.low, high := some b.high, low_dt := some b.dt, high_dt := some b.dt },
      [], none⟩
  else
    let s1 :=
      if s.spl = none then
        { s with spl := s.low, spl_dt := s.low_dt, high := none, high_dt := none, bars_since := 0 }
      else s
    let s2 :=
      if s1.high = none ∨ b.high > s1.high.getD 0 then
        { s1 with high := some b.high, high_dt := some b.dt, bars_since := s1.bars_since + 1 }
      else s1
    if truthyQ s2.coc ∧ b.close > s2.coc.getD 0 then
      let priceLevel := s2.coc
      let pr := switch_uptrend s2 b.dt b.high
      match pr.2 with
      | some e => ⟨pr.1, [], some e⟩
      | none =>
        ⟨pr.1,
          if pr.1.on_reversal then
            [.reversal pr.1.symbol b.dt pr.1.trend b.close pr.1.coc priceLevel]
          else [],
          none⟩
    else ⟨s2, [], none⟩

/-- The whole `if self.trend == "DOWN":` branch of `identify`. -/
def identifyDown (s : SwingState) (b : Bar) : StepResult :=
  if truthyQ s.spl then
    let s3 := downPendingUpdate s b
    if b.close < s3.spl.getD 0 then downBreakout s3 b else downFormation s3 b
  else downFormation s b

/-- The `if self.trend is None:` branch of `identify`: seed the envelope on
the first bar; afterwards start a trend on a close beyond the envelope and
always widen the envelope. -/
def identifyNone (s : SwingState) (b : Bar) : StepResult :=
  match s.high, s.low with
  | none, _ =>
    ⟨{ s with high := some b.high, low := some b.low, high_dt := some b.dt, low_dt := some b.dt },
      [], none⟩
  | _, none =>
    ⟨{ s with high := some b.high, low := some b.low, high_dt := some b.dt, low_dt := some b.dt },
      [], none⟩
  | some _, some _ =>
    let s1 :=
      if b.close > s.high.getD 0 then
        { s with trend := some .UP, high := some b.high, high_dt := some b.dt,
                 coc := s.low, coc_dt := s.low_dt }
      else if b.close < s.low.getD 0 then
        { s with trend := some .DOWN, low := some b.low, low_dt := some b.dt,
                 coc := s.high, coc_dt := s.high_dt }
      else s
    let s2 :=
      if b.high > s1.high.getD 0 then { s1 with high := some b.high, high_dt := some b.dt } else s1
    let s3 :=
      if b.low < s2.low.getD 0 then { s2 with low := some b.low, low_dt := some b.dt } else s2
    ⟨s3, [], none⟩

/-- `Swing.identify(dt, high, low, close)`, one bar. -/
def identify (s : SwingState) (b : Bar) : StepResult :=
  match s.trend with
  | none => identifyNone s b
  | some .UP => identifyUp s b
  | some .DOWN => identifyDown s b

/-- Process a list of bars in order, concatenating the recorded events and
stopping at the first bar that raises (the exception propagates out of
`identify`, so later bars are not processed). -/
def processBars (s : SwingState) : List Bar → SwingState × List Event × Option String
  | [] => (s, [], none)
  | b :: bs =>
    let r := identify s b
    match r.err with
    | some e => (r.state, r.events, some e)
    | none =>
      let rest := processBars r.state bs
      (rest.1, r.events ++ rest.2.1, rest.2.2)

/-- `Swing.reset`: clear the eleven tracked fields and the bar counter; when
plotting is on, also drop the DataFrame and the recorded lines/colors.
`symbol`, the thresholds, the plot flag and the hooks are not touched. -/
def reset (s : SwingState) : SwingState :=
  let s1 :=
    { s with
        high := none, low := none, trend := none, coc := none, sph := none, spl := none,
        high_dt := none, low_dt := none, coc_dt := none, sph_dt := none, spl_dt := none,
        bars_since := 0 }
  if s1.plot then { s1 with df := none, plot_colors := [], plot_lines := [] } else s1

/-- `Swing.pack`: a copy of `__dict__` without the logger and the two
callback hooks. -/
structure Packed where
  trend : Option Trend
  high : Option ℚ
  low : Option ℚ
  coc : Option ℚ
  sph : Option ℚ
  spl : Option ℚ
  high_dt : Option Nat
  low_dt : Option Nat
  coc_dt : Option Nat
  sph_dt : Option Nat
  spl_dt : Option Nat
  retrace_threshold : Option ℚ
  sideways_threshold : Int
  symbol : Option String
  bars_since : Nat
  plot : Bool
  df : Option (List Nat)
  plot_lines : List ((Option Nat × Option ℚ) × (Nat × Option ℚ))
  plot_colors : List String
  deriving DecidableEq, Repr

def pack (s : SwingState) : Packed :=
  { trend := s.trend, high := s.high, low := s.low, coc := s.coc, sph := s.sph, spl := s.spl,
    high_dt := s.high_dt, low_dt := s.low_dt, coc_dt := s.coc_dt, sph_dt := s.sph_dt,
    spl_dt := s.spl_dt, retrace_threshold := s.retrace_threshold,
    sideways_threshold := s.sideways_threshold, symbol := s.symbol, bars_since := s.bars_since,
    plot := s.plot, df := s.df, plot_lines := s.plot_lines, plot_colors := s.plot_colors }

/-- `Swing.unpack`: `self.__dict__.update(data)` — every packed field is
overwritten; the hooks (absent from the mapping) keep their values. -/
def unpack (s : SwingState) (p : Packed) : SwingState :=
  { trend := p.trend, high := p.high, low := p.low, coc := p.coc, sph := p.sph, spl := p.spl,
    high_dt := p.high_dt, low_dt := p.low_dt, coc_dt := p.coc_dt, sph_dt := p.sph_dt,
    spl_dt := p.spl_dt, retrace_threshold := p.retrace_threshold,
    sideways_threshold := p.sideways_threshold, symbol := p.symbol, bars_since := p.bars_since,
    plot := p.plot, df := p.df, plot_lines := p.plot_lines, plot_colors := p.plot_colors,
    on_breakout := s.on_breakout, on_reversal := s.on_reversal }

/-- States reachable from a freshly constructed engine by `identify` and
`reset` calls. -/
inductive Reachable : SwingState → Prop where
  | init : ∀ pct thr, Reachable (Swing.init pct thr)
  | step : ∀ s b, Reachable s → Reachable (identify s b).state
  | reset : ∀ s, Reachable s → Reachable (reset s)

/-- The state at the start of the UP branch's formation / reversal-watch
part: the pending-pivot update has run when a truthy pivot is pending,
otherwise the state is untouched. -/
def preUp (s : SwingState) (b : Bar) : SwingState :=
  if truthyQ s.sph then upPendingUpdate s b else s

/-- Mirror of `preUp` for the DOWN branch. -/
def preDown (s : SwingState) (b : Bar) : SwingState :=
  if truthyQ s.spl then downPendingUpdate s b else s

/-- A freshly constructed engine with default configuration and both event
hooks registered. -/
def demoState : SwingState :=
  { Swing.init (some 5) 20 with on_breakout := true, on_reversal := true }

/-- A bar that neither makes a new high above 12 nor breaks a level. -/
def quietBar (k : Nat) : Bar := ⟨k, 11, 9, 10⟩

/-- The spec's Up-start scenario: after these two bars the trend is UP with
`coc = 8` and `high = 12`. -/
def upStartBars : List Bar := [⟨0, 10, 8, 9⟩, ⟨1, 12, 9, 11⟩]

/-- Up start, then `n + 1` quiet bars: the first quiet bar forms the pivot
`sph = 12`, the remaining `n` accumulate the pullback. -/
def formationScenario (n : Nat) : List Bar :=
  upStartBars ++ (List.range (n + 1)).map (fun k => quietBar (k + 2))

/-- The engine state after the Up start (trend UP, `coc = 8`, `high = 12`,
no pending pivot). -/
def cocState : SwingState := (processBars demoState upStartBars).1

/-- `cocState` with plotting enabled but no DataFrame bound. -/
def plotState : SwingState := { cocState with plot := true }

/-- A bar with no new high whose close 7.5 breaks `coc = 8`: a reversal. -/
def revBar : Bar := ⟨2, 11, 9, 15 / 2⟩

/-- The state after the formation scenario with no extra quiet bars:
trend UP, `sph = 12`, `low = 9`, `bars_since = 1`. -/
def pendState : SwingState := (processBars demoState (formationScenario 0)).1

/-- A bar closing at 12.5 above the pending pivot 12: a breakout. -/
def bosBar : Bar := ⟨3, 13, 10, 25 / 2⟩

/-- A negative-price DOWN run: after these three bars the trend is DOWN with
`spl = -12`, `high = -8`, `coc = -5`, `bars_since = 1`. -/
def negBars : List Bar := [⟨1, -5, -10, -7⟩, ⟨2, -6, -12, -11⟩, ⟨3, -8, -11, -9⟩]

/-- The engine state after `negBars`. -/
def negState : SwingState := (processBars demoState negBars).1

/-- A gap-down bar closing below `spl = -12`: a breakout whose retracement
fraction is `(-8 - -12) / -12 = -1/3`. -/
def negBar4 : Bar := ⟨4, -9, -14, -13⟩

/-- An UP-trend state whose pending pivot and CoCh level are exactly 0. -/
def zeroLevelState : SwingState :=
  { demoState with
      trend := some .UP
      sph := some 0
      coc := some 0
      high := some 10
      low := some 9 }

/-- A bar whose close is beyond both zero levels of `zeroLevelState`. -/
def zeroBar : Bar := ⟨7, 10, 9, 19 / 2⟩

/-- A wide-range bar: a new high above 12 whose close 6 is below `coc = 8`. -/
def bigRangeBar : Bar := ⟨2, 13, 5, 6⟩


/-! ### Field-preservation lemmas for the plot block and the trend switches -/

theorem plotStep_of_not_plot {s : SwingState} (c : String) (h : s.plot = false) :
    plotStep s c = (s, none) := by
  unfold plotStep
  simp [h]

@[simp] theorem plotStep_trend (s : SwingState) (c : String) :
    (plotStep s c).1.trend = s.trend := by
  unfold plotStep
  split
  · split <;> rfl
  · rfl

@[simp] theorem plotStep_coc (s : SwingState) (c : String) :
    (plotStep s c).1.coc = s.coc := by
  unfold plotStep
  split
  · split <;> rfl
  · rfl

@[simp] theorem plotStep_sph (s : SwingState) (c : String) :
    (plotStep s c).1.sph = s.sph := by
  unfold plotStep
  split
  · split <;> rfl
  · rfl

@[simp] theorem plotStep_spl (s : SwingState) (c : String) :
    (plotStep s c).1.spl = s.spl := by
  unfold plotStep
  split
  · split <;> rfl
  · rfl

@[simp] theorem plotStep_high (s : SwingState) (c : String) :
    (plotStep s c).1.high = s.high := by
  unfold plotStep
  split
  · split <;> rfl
  · rfl

@[simp] theorem plotStep_low (s : SwingState) (c : String) :
    (plotStep s c).1.low = s.low := by
  unfold plotStep
  split
  · split <;> rfl
  · rfl

@[simp] theorem plotStep_low_dt (s : SwingState) (c : String) :
    (plotStep s c).1.low_dt = s.low_dt := by
  unfold plotStep
  split
  · split <;> rfl
  · rfl

@[simp] theorem plotStep_bars_since (s : SwingState) (c : String) :
    (plotStep s c).1.bars_since = s.bars_since := by
  unfold plotStep
  split
  · split <;> rfl
  · rfl

@[simp] theorem plotStep_symbol (s : SwingState) (c : String) :
    (plotStep s c).1.symbol = s.symbol := by
  unfold plotStep
  split
  · split <;> rfl
  · rfl

@[simp] theorem plotStep_on_breakout (s : SwingState) (c : String) :
    (plotStep s c).1.on_breakout = s.on_breakout := by
  unfold plotStep
  split
  · split <;> rfl
  · rfl

@[simp] theorem plotStep_on_reversal (s : SwingState) (c : String) :
    (plotStep s c).1.on_reversal = s.on_reversal := by
  unfold plotStep
  split
  · split <;> rfl
  · rfl

@[simp] theorem switch_downtrend_trend (s : SwingState) (dt : Nat) (low : ℚ) :
    (switch_downtrend s dt low).1.trend = some .DOWN := by
  unfold switch_downtrend
  simp

@[simp] theorem switch_downtrend_sph (s : SwingState) (dt : Nat) (low : ℚ) :
    (switch_downtrend s dt low).1.sph = none := by
  unfold switch_downtrend
  simp

@[simp] theorem switch_downtrend_spl (s : SwingState) (dt : Nat) (low : ℚ) :
    (switch_downtrend s dt low).1.spl = s.spl := by
  unfold switch_downtrend
  simp

@[simp] theorem switch_downtrend_bars_since (s : SwingState) (dt : Nat) (low : ℚ) :
    (switch_downtrend s dt low).1.bars_since = 0 := by
  unfold switch_downtrend
  simp

@[simp] theorem switch_downtrend_coc (s : SwingState) (dt : Nat) (low : ℚ) :
    (switch_downtrend s dt low).1.coc = s.high := by
  unfold switch_downtrend
  simp

@[simp] theorem switch_downtrend_high (s : SwingState) (dt : Nat) (low : ℚ) :
    (switch_downtrend s dt low).1.high = none := by
  unfold switch_downtrend
  simp

@[simp] theorem switch_downtrend_low (s : SwingState) (dt : Nat) (low : ℚ) :
    (switch_downtrend s dt low).1.low = some low := by
  unfold switch_downtrend
  simp

@[simp] theorem switch_downtrend_low_dt (s : SwingState) (dt : Nat) (low : ℚ) :
    (switch_downtrend s dt low).1.low_dt = some dt := by
  unfold switch_downtrend
  simp

@[simp] theorem switch_uptrend_trend (s : SwingState) (dt : Nat) (high : ℚ) :
    (switch_uptrend s dt high).1.trend = some .UP := by
  unfold switch_uptrend
  simp

@[simp] theorem switch_uptrend_spl (s : SwingState) (dt : Nat) (high : ℚ) :
    (switch_uptrend s dt high).1.spl = none := by
  unfold switch_uptrend
  simp

@[simp] theorem switch_uptrend_sph (s : SwingState) (dt : Nat) (high : ℚ) :
    (switch_uptrend s dt high).1.sph = s.sph := by
  unfold switch_uptrend
  simp

@[simp] theorem switch_uptrend_bars_since (s : SwingState) (dt : Nat) (high : ℚ) :
    (switch_uptrend s dt high).1.bars_since = 0 := by
  unfold switch_uptrend
  simp

@[simp] theorem switch_uptrend_coc (s : SwingState) (dt : Nat) (high : ℚ) :
    (switch_uptrend s dt high).1.coc = s.low := by
  unfold switch_uptrend
  simp

@[simp] theorem switch_uptrend_high (s : SwingState) (dt : Nat) (high : ℚ) :
    (switch_uptrend s dt high).1.high = some high := by
  unfold switch_uptrend
  simp


/-! ### Field lemmas for the pending-pivot update blocks -/

@[simp] theorem upPendingUpdate_sph (s : SwingState) (b : Bar) :
    (upPendingUpdate s b).sph = s.sph := by
  unfold upPendingUpdate
  dsimp only
  split <;> split <;> rfl

@[simp] theorem upPendingUpdate_spl (s : SwingState) (b : Bar) :
    (upPendingUpdate s b).spl = s.spl := by
  unfold upPendingUpdate
  dsimp only
  split <;> split <;> rfl

@[simp] theorem upPendingUpdate_trend (s : SwingState) (b : Bar) :
    (upPendingUpdate s b).trend = s.trend := by
  unfold upPendingUpdate
  dsimp only
  split <;> split <;> rfl

@[simp] theorem upPendingUpdate_coc (s : SwingState) (b : Bar) :
    (upPendingUpdate s b).coc = s.coc := by
  unfold upPendingUpdate
  dsimp only
  split <;> split <;> rfl

@[simp] theorem upPendingUpdate_retrace_threshold (s : SwingState) (b : Bar) :
    (upPendingUpdate s b).retrace_threshold = s.retrace_threshold := by
  unfold upPendingUpdate
  dsimp only
  split <;> split <;> rfl

@[simp] theorem upPendingUpdate_bars_since (s : SwingState) (b : Bar) :
    (upPendingUpdate s b).bars_since = s.bars_since + 1 := by
  unfold upPendingUpdate
  dsimp only
  split <;> split <;> rfl

@[simp] theorem upPendingUpdate_plot (s : SwingState) (b : Bar) :
    (upPendingUpdate s b).plot = s.plot := by
  unfold upPendingUpdate
  dsimp only
  split <;> split <;> rfl

@[simp] theorem upPendingUpdate_symbol (s : SwingState) (b : Bar) :
    (upPendingUpdate s b).symbol = s.symbol := by
  unfold upPendingUpdate
  dsimp only
  split <;> split <;> rfl

@[simp] theorem upPendingUpdate_on_breakout (s : SwingState) (b : Bar) :
    (upPendingUpdate s b).on_breakout = s.on_breakout := by
  unfold upPendingUpdate
  dsimp only
  split <;> split <;> rfl

@[simp] theorem upPendingUpdate_on_reversal (s : SwingState) (b : Bar) :
    (upPendingUpdate s b).on_reversal = s.on_reversal := by
  unfold upPendingUpdate
  dsimp only
  split <;> split <;> rfl

@[simp] theorem upPendingUpdate_df (s : SwingState) (b : Bar) :
    (upPendingUpdate s b).df = s.df := by
  unfold upPendingUpdate
  dsimp only
  split <;> split <;> rfl

/-- After the UP pending-pivot update the low tracker is set and already at
or below the bar's low, so the later low-widening test cannot fire again. -/
theorem upPendingUpdate_low_done (s : SwingState) (b : Bar) :
    ¬((upPendingUpdate s b).low = none ∨ b.low < (upPendingUpdate s b).low.getD 0) := by
  unfold upPendingUpdate
  dsimp only
  split
  · rename_i h1
    split
    · simp
    · rename_i h2
      simpa using h2
  · rename_i h1
    split
    · simp
    · rename_i h2
      simpa using h2

/-- After the UP pending-pivot update the bar cannot still exceed the tracked
high, so the new-high branch of the formation part cannot fire. -/
theorem upPendingUpdate_high_done (s : SwingState) (b : Bar) :
    ¬(truthyQ (upPendingUpdate s b).high ∧ b.high > (upPendingUpdate s b).high.getD 0) := by
  unfold upPendingUpdate
  dsimp only
  split
  · split <;> simp
  · rename_i h1
    split <;> simpa using h1

@[simp] theorem downPendingUpdate_spl (s : SwingState) (b : Bar) :
    (downPendingUpdate s b).spl = s.spl := by
  unfold downPendingUpdate
  dsimp only
  split <;> split <;> rfl

@[simp] theorem downPendingUpdate_sph (s : SwingState) (b : Bar) :
    (downPendingUpdate s b).sph = s.sph := by
  unfold downPendingUpdate
  dsimp only
  split <;> split <;> rfl

@[simp] theorem downPendingUpdate_trend (s : SwingState) (b : Bar) :
    (downPendingUpdate s b).trend = s.trend := by
  unfold downPendingUpdate
  dsimp only
  split <;> split <;> rfl

@[simp] theorem downPendingUpdate_coc (s : SwingState) (b : Bar) :
    (downPendingUpdate s b).coc = s.coc := by
  unfold downPendingUpdate
  dsimp only
  split <;> split <;> rfl

@[simp] theorem downPendingUpdate_retrace_threshold (s : SwingState) (b : Bar) :
    (downPendingUpdate s b).retrace_threshold = s.retrace_threshold := by
  unfold downPendingUpdate
  dsimp only
  split <;> split <;> rfl

@[simp] theorem downPendingUpdate_bars_since (s : SwingState) (b : Bar) :
    (downPendingUpdate s b).bars_since = s.bars_since + 1 := by
  unfold downPendingUpdate
  dsimp only
  split <;> split <;> rfl

@[simp] theorem downPendingUpdate_plot (s : SwingState) (b : Bar) :
    (downPendingUpdate s b).plot = s.plot := by
  unfold downPendingUpdate
  dsimp only
  split <;> split <;> rfl

@[simp] theorem downPendingUpdate_symbol (s : SwingState) (b : Bar) :
    (downPendingUpdate s b).symbol = s.symbol := by
  unfold downPendingUpdate
  dsimp only
  split <;> split <;> rfl

@[simp] theorem downPendingUpdate_on_breakout (s : SwingState) (b : Bar) :
    (downPendingUpdate s b).on_breakout = s.on_breakout := by
  unfold downPendingUpdate
  dsimp only
  split <;> split <;> rfl

@[simp] theorem downPendingUpdate_on_reversal (s : SwingState) (b : Bar) :
    (downPendingUpdate s b).on_reversal = s.on_reversal := by
  unfold downPendingUpdate
  dsimp only
  split <;> split <;> rfl

@[simp] theorem downPendingUpdate_df (s : SwingState) (b : Bar) :
    (downPendingUpdate s b).df = s.df := by
  unfold downPendingUpdate
  dsimp only
  split <;> split <;> rfl

/-- After the DOWN pending-pivot update the high tracker is set and already at
or above the bar's high. -/
theorem downPendingUpdate_high_done (s : SwingState) (b : Bar) :
    ¬((downPendingUpdate s b).high = none ∨ b.high > (downPendingUpdate s b).high.getD 0) := by
  unfold downPendingUpdate
  dsimp only
  split
  · rename_i h1
    split
    · simp
    · rename_i h2
      simpa using h2
  · rename_i h1
    split
    · simp
    · rename_i h2
      simpa using h2

/-- After the DOWN pending-pivot update the bar cannot still undercut the
tracked low. -/
theorem downPendingUpdate_low_done (s : SwingState) (b : Bar) :
    ¬(truthyQ (downPendingUpdate s b).low ∧ b.low < (downPendingUpdate s b).low.getD 0) := by
  unfold downPendingUpdate
  dsimp only
  split
  · split <;> simp
  · rename_i h1
    split <;> simpa using h1


/-! ### Lemmas about the breakout blocks -/

theorem plotStep_df_none {s : SwingState} (c : String) (hp : s.plot = true)
    (hdf : s.df = none) : plotStep s c = (s, some "DataFrame not found.") := by
  unfold plotStep
  rw [if_pos hp, hdf]
  rfl

@[simp] theorem plotStep_high_dt (s : SwingState) (c : String) :
    (plotStep s c).1.high_dt = s.high_dt := by
  unfold plotStep
  split
  · split <;> rfl
  · rfl

@[simp] theorem plotStep_coc_dt (s : SwingState) (c : String) :
    (plotStep s c).1.coc_dt = s.coc_dt := by
  unfold plotStep
  split
  · split <;> rfl
  · rfl

@[simp] theorem switch_downtrend_symbol (s : SwingState) (dt : Nat) (low : ℚ) :
    (switch_downtrend s dt low).1.symbol = s.symbol := by
  unfold switch_downtrend
  simp

@[simp] theorem switch_downtrend_on_reversal (s : SwingState) (dt : Nat) (low : ℚ) :
    (switch_downtrend s dt low).1.on_reversal = s.on_reversal := by
  unfold switch_downtrend
  simp

@[simp] theorem switch_uptrend_symbol (s : SwingState) (dt : Nat) (high : ℚ) :
    (switch_uptrend s dt high).1.symbol = s.symbol := by
  unfold switch_uptrend
  simp

@[simp] theorem switch_uptrend_on_reversal (s : SwingState) (dt : Nat) (high : ℚ) :
    (switch_uptrend s dt high).1.on_reversal = s.on_reversal := by
  unfold switch_uptrend
  simp

@[simp] theorem switch_uptrend_low (s : SwingState) (dt : Nat) (high : ℚ) :
    (switch_uptrend s dt high).1.low = none := by
  unfold switch_uptrend
  simp

@[simp] theorem switch_uptrend_high_dt (s : SwingState) (dt : Nat) (high : ℚ) :
    (switch_uptrend s dt high).1.high_dt = some dt := by
  unfold switch_uptrend
  simp

theorem switch_downtrend_of_not_plot (s : SwingState) (dt : Nat) (low : ℚ)
    (hp : s.plot = false) :
    switch_downtrend s dt low =
      ({ s with
          trend := some .DOWN
          coc := s.high
          coc_dt := s.high_dt
          high := none
          sph := none
          sph_dt := none
          low := some low
          low_dt := some dt
          bars_since := 0 },
        none) := by
  unfold switch_downtrend plotStep
  simp [hp]

theorem switch_downtrend_raises (s : SwingState) (dt : Nat) (low : ℚ)
    (hp : s.plot = true) (hdf : s.df = none) :
    switch_downtrend s dt low =
      ({ s with
          trend := some .DOWN
          coc := s.high
          coc_dt := s.high_dt
          high := none
          sph := none
          sph_dt := none
          low := some low
          low_dt := some dt
          bars_since := 0 },
        some "DataFrame not found.") := by
  unfold switch_downtrend plotStep
  simp [hp, hdf, line_end_dt]

theorem switch_uptrend_of_not_plot (s : SwingState) (dt : Nat) (high : ℚ)
    (hp : s.plot = false) :
    switch_uptrend s dt high =
      ({ s with
          trend := some .UP
          coc := s.low
          coc_dt := s.low_dt
          low := none
          spl := none
          spl_dt := none
          high := some high
          high_dt := some dt
          bars_since := 0 },
        none) := by
  unfold switch_uptrend plotStep
  simp [hp]

theorem switch_uptrend_raises (s : SwingState) (dt : Nat) (high : ℚ)
    (hp : s.plot = true) (hdf : s.df = none) :
    switch_uptrend s dt high =
      ({ s with
          trend := some .UP
          coc := s.low
          coc_dt := s.low_dt
          low := none
          spl := none
          spl_dt := none
          high := some high
          high_dt := some dt
          bars_since := 0 },
        some "DataFrame not found.") := by
  unfold switch_uptrend plotStep
  simp [hp, hdf, line_end_dt]

@[simp] theorem upBreakout_bars_since (s : SwingState) (b : Bar) :
    (upBreakout s b).state.bars_since = 0 := by
  unfold upBreakout
  dsimp only
  split
  · rfl
  · split <;> simp

@[simp] theorem upBreakout_sph (s : SwingState) (b : Bar) :
    (upBreakout s b).state.sph = none := by
  unfold upBreakout
  dsimp only
  split
  · rfl
  · split <;> simp

@[simp] theorem upBreakout_trend (s : SwingState) (b : Bar) :
    (upBreakout s b).state.trend = s.trend := by
  unfold upBreakout
  dsimp only
  split
  · rfl
  · split <;> simp

@[simp] theorem upBreakout_spl (s : SwingState) (b : Bar) :
    (upBreakout s b).state.spl = s.spl := by
  unfold upBreakout
  dsimp only
  split
  · rfl
  · split <;> simp

theorem upBreakout_events_isBreakout (s : SwingState) (b : Bar) :
    ∀ e ∈ (upBreakout s b).events, e.isBreakout = true := by
  unfold upBreakout
  dsimp only
  split
  · simp
  · split
    · simp
    · split <;> simp [Event.isBreakout]

/-- The suppressed UP breakout: pivot cleared, counter reset, nothing else. -/
theorem upBreakout_suppressed (s : SwingState) (b : Bar)
    (ht : truthyQ s.retrace_threshold = true)
    (hlt : |(s.low.getD 0 - s.sph.getD 0) / s.sph.getD 0| < s.retrace_threshold.getD 0) :
    upBreakout s b = ⟨{ s with sph := none, sph_dt := none, bars_since := 0 }, [], none⟩ := by
  unfold upBreakout
  dsimp only
  rw [if_pos ⟨ht, hlt⟩]

/-- The non-suppressed UP breakout with plotting off: `coc` moves to the
tracked low and `on_breakout` is recorded iff the hook is set. -/
theorem upBreakout_fired (s : SwingState) (b : Bar) (hp : s.plot = false)
    (h : ¬(truthyQ s.retrace_threshold = true ∧
          |(s.low.getD 0 - s.sph.getD 0) / s.sph.getD 0| < s.retrace_threshold.getD 0)) :
    upBreakout s b =
      ⟨{ s with
          sph := none
          sph_dt := none
          bars_since := 0
          coc := s.low
          coc_dt := s.low_dt },
        if s.on_breakout then
          [.breakout s.symbol b.dt s.trend b.close s.sph s.low] else [],
        none⟩ := by
  unfold upBreakout
  dsimp only
  rw [if_neg h]
  simp [plotStep, hp]

/-- The non-suppressed UP breakout with plotting on but no bound DataFrame:
the state mutation is committed, then the bar raises and no event fires. -/
theorem upBreakout_raises (s : SwingState) (b : Bar) (hp : s.plot = true) (hdf : s.df = none)
    (h : ¬(truthyQ s.retrace_threshold = true ∧
          |(s.low.getD 0 - s.sph.getD 0) / s.sph.getD 0| < s.retrace_threshold.getD 0)) :
    upBreakout s b =
      ⟨{ s with
          sph := none
          sph_dt := none
          bars_since := 0
          coc := s.low
          coc_dt := s.low_dt },
        [], some "DataFrame not found."⟩ := by
  unfold upBreakout
  dsimp only
  rw [if_neg h]
  simp [plotStep, hp, hdf, line_end_dt]

@[simp] theorem downBreakout_bars_since (s : SwingState) (b : Bar) :
    (downBreakout s b).state.bars_since = 0 := by
  unfold downBreakout
  dsimp only
  split
  · rfl
  · split <;> simp

@[simp] theorem downBreakout_spl (s : SwingState) (b : Bar) :
    (downBreakout s b).state.spl = none := by
  unfold downBreakout
  dsimp only
  split
  · rfl
  · split <;> simp

@[simp] theorem downBreakout_trend (s : SwingState) (b : Bar) :
    (downBreakout s b).state.trend = s.trend := by
  unfold downBreakout
  dsimp only
  split
  · rfl
  · split <;> simp

@[simp] theorem downBreakout_sph (s : SwingState) (b : Bar) :
    (downBreakout s b).state.sph = s.sph := by
  unfold downBreakout
  dsimp only
  split
  · rfl
  · split <;> simp

theorem downBreakout_events_isBreakout (s : SwingState) (b : Bar) :
    ∀ e ∈ (downBreakout s b).events, e.isBreakout = true := by
  unfold downBreakout
  dsimp only
  split
  · simp
  · split
    · simp
    · split <;> simp [Event.isBreakout]

/-- The suppressed DOWN breakout.  Note the signed comparison: the source
compares `retrace_pct < self.retrace_threshold` without `abs`. -/
theorem downBreakout_suppressed (s : SwingState) (b : Bar)
    (ht : truthyQ s.retrace_threshold = true)
    (hlt : (s.high.getD 0 - s.spl.getD 0) / s.spl.getD 0 < s.retrace_threshold.getD 0) :
    downBreakout s b = ⟨{ s with spl := none, spl_dt := none, bars_since := 0 }, [], none⟩ := by
  unfold downBreakout
  dsimp only
  rw [if_pos ⟨ht, hlt⟩]

/-- The non-suppressed DOWN breakout with plotting off. -/
theorem downBreakout_fired (s : SwingState) (b : Bar) (hp : s.plot = false)
    (h : ¬(truthyQ s.retrace_threshold = true ∧
          (s.high.getD 0 - s.spl.getD 0) / s.spl.getD 0 < s.retrace_threshold.getD 0)) :
    downBreakout s b =
      ⟨{ s with
          spl := none
          spl_dt := none
          bars_since := 0
          coc := s.high
          coc_dt := s.high_dt },
        if s.on_breakout then
          [.breakout s.symbol b.dt s.trend b.close s.spl s.high] else [],
        none⟩ := by
  unfold downBreakout
  dsimp only
  rw [if_neg h]
  simp [plotStep, hp]

/-- The non-suppressed DOWN breakout with plotting on but no bound DataFrame. -/
theorem downBreakout_raises (s : SwingState) (b : Bar) (hp : s.plot = true) (hdf : s.df = none)
    (h : ¬(truthyQ s.retrace_threshold = true ∧
          (s.high.getD 0 - s.spl.getD 0) / s.spl.getD 0 < s.retrace_threshold.getD 0)) :
    downBreakout s b =
      ⟨{ s with
          spl := none
          spl_dt := none
          bars_since := 0
          coc := s.high
          coc_dt := s.high_dt },
        [], some "DataFrame not found."⟩ := by
  unfold downBreakout
  dsimp only
  rw [if_neg h]
  simp [plotStep, hp, hdf, line_end_dt]


/-! ### Lemmas about the formation / reversal-watch blocks -/

@[simp] theorem upFormation_spl (s : SwingState) (b : Bar) :
    (upFormation s b).state.spl = s.spl := by
  unfold upFormation
  dsimp only
  repeat' split
  all_goals simp

theorem upFormation_trend_or (s : SwingState) (b : Bar) :
    (upFormation s b).state.trend = s.trend ∨
      ((upFormation s b).state.trend = some .DOWN ∧ (upFormation s b).state.sph = none) := by
  unfold upFormation
  dsimp only
  repeat' split
  all_goals first | (left; simp; done) | (right; exact ⟨by simp, by simp⟩)

theorem upFormation_events_no_breakout (s : SwingState) (b : Bar) :
    ∀ e ∈ (upFormation s b).events, e.isBreakout = false := by
  unfold upFormation
  dsimp only
  repeat' split
  all_goals simp [Event.isBreakout]

@[simp] theorem downFormation_sph (s : SwingState) (b : Bar) :
    (downFormation s b).state.sph = s.sph := by
  unfold downFormation
  dsimp only
  repeat' split
  all_goals simp

theorem downFormation_trend_or (s : SwingState) (b : Bar) :
    (downFormation s b).state.trend = s.trend ∨
      ((downFormation s b).state.trend = some .UP ∧ (downFormation s b).state.spl = none) := by
  unfold downFormation
  dsimp only
  repeat' split
  all_goals first | (left; simp; done) | (right; exact ⟨by simp, by simp⟩)

theorem downFormation_events_no_breakout (s : SwingState) (b : Bar) :
    ∀ e ∈ (downFormation s b).events, e.isBreakout = false := by
  unfold downFormation
  dsimp only
  repeat' split
  all_goals simp [Event.isBreakout]


/-- A quiet UP formation-watch bar: no new high, pivot already pending, low
tracker already at or below the bar, no reversal — the state is untouched. -/
theorem upFormation_stay (s : SwingState) (b : Bar)
    (hh : ¬(truthyQ s.high = true ∧ b.high > s.high.getD 0))
    (hsph : ¬s.sph = none)
    (hlow : ¬(s.low = none ∨ b.low < s.low.getD 0))
    (hnc : ¬(truthyQ s.coc = true ∧ b.close < s.coc.getD 0)) :
    upFormation s b = ⟨s, [], none⟩ := by
  unfold upFormation
  dsimp only
  rw [if_neg hh, if_neg hsph, if_neg hlow, if_neg hnc]

/-- A reversal-triggering UP bar always commits the switch to DOWN with a
zeroed bar counter, whether or not the plot block then raises. -/
theorem upFormation_reversal_trend (s : SwingState) (b : Bar)
    (hh : ¬(truthyQ s.high = true ∧ b.high > s.high.getD 0))
    (hc : truthyQ s.coc = true) (hcl : b.close < s.coc.getD 0) :
    (upFormation s b).state.trend = some .DOWN ∧
      (upFormation s b).state.bars_since = 0 := by
  unfold upFormation
  dsimp only
  rw [if_neg hh]
  repeat' split
  all_goals simp_all

/-- The UP reversal bar with plotting off: the full §4.2 transition, and the
`on_reversal` invocation receives the new CoCh (the broken tracked high) as
its fifth argument and the old CoCh as its sixth. -/
theorem upFormation_reversal_plot_off (s : SwingState) (b : Bar)
    (hh : ¬(truthyQ s.high = true ∧ b.high > s.high.getD 0))
    (hc : truthyQ s.coc = true) (hcl : b.close < s.coc.getD 0) (hp : s.plot = false) :
    (upFormation s b).state.trend = some .DOWN ∧
    (upFormation s b).state.coc = s.high ∧
    (upFormation s b).state.high = none ∧
    (upFormation s b).state.sph = none ∧
    (upFormation s b).state.low = some b.low ∧
    (upFormation s b).state.low_dt = some b.dt ∧
    (upFormation s b).state.bars_since = 0 ∧
    (upFormation s b).state.spl = s.spl ∧
    (upFormation s b).events =
      (if s.on_reversal then [.reversal s.symbol b.dt (some .DOWN) b.close s.high s.coc]
       else []) ∧
    (upFormation s b).err = none := by
  unfold upFormation
  dsimp only
  rw [if_neg hh]
  repeat' split
  all_goals simp_all [switch_downtrend, plotStep]

/-- The UP reversal bar with plotting on but no DataFrame bound: the switch
is committed in full, then the bar raises and the hook is never invoked. -/
theorem upFormation_reversal_raises (s : SwingState) (b : Bar)
    (hh : ¬(truthyQ s.high = true ∧ b.high > s.high.getD 0))
    (hc : truthyQ s.coc = true) (hcl : b.close < s.coc.getD 0)
    (hp : s.plot = true) (hdf : s.df = none) :
    (upFormation s b).err = some "DataFrame not found." ∧
    (upFormation s b).events = [] ∧
    (upFormation s b).state.trend = some .DOWN ∧
    (upFormation s b).state.coc = s.high ∧
    (upFormation s b).state.high = none ∧
    (upFormation s b).state.sph = none ∧
    (upFormation s b).state.low = some b.low ∧
    (upFormation s b).state.bars_since = 0 := by
  unfold upFormation
  dsimp only
  rw [if_neg hh]
  repeat' split
  all_goals simp_all [switch_downtrend, plotStep, line_end_dt]

/-- A pivot-forming UP bar that does not also reverse ends with the counter
at 1, not 0: the formation resets it and the pullback accumulation in the
same bar immediately increments it. -/
theorem upFormation_forms_pivot (s : SwingState) (b : Bar)
    (hsph : s.sph = none) :
    (upFormation s b).state.sph ≠ none → (upFormation s b).state.bars_since = 1 := by
  unfold upFormation
  dsimp only
  repeat' split
  all_goals intro hne
  all_goals simp_all

/-- A quiet DOWN formation-watch bar leaves the state untouched. -/
theorem downFormation_stay (s : SwingState) (b : Bar)
    (hl : ¬(truthyQ s.low = true ∧ b.low < s.low.getD 0))
    (hspl : ¬s.spl = none)
    (hhigh : ¬(s.high = none ∨ b.high > s.high.getD 0))
    (hnc : ¬(truthyQ s.coc = true ∧ b.close > s.coc.getD 0)) :
    downFormation s b = ⟨s, [], none⟩ := by
  unfold downFormation
  dsimp only
  rw [if_neg hl, if_neg hspl, if_neg hhigh, if_neg hnc]

/-- A reversal-triggering DOWN bar always commits the switch to UP with a
zeroed bar counter. -/
theorem downFormation_reversal_trend (s : SwingState) (b : Bar)
    (hl : ¬(truthyQ s.low = true ∧ b.low < s.low.getD 0))
    (hc : truthyQ s.coc = true) (hcl : b.close > s.coc.getD 0) :
    (downFormation s b).state.trend = some .UP ∧
      (downFormation s b).state.bars_since = 0 := by
  unfold downFormation
  dsimp only
  rw [if_neg hl]
  repeat' split
  all_goals simp_all

/-- The DOWN reversal bar with plotting off, mirror of the UP case. -/
theorem downFormation_reversal_plot_off (s : SwingState) (b : Bar)
    (hl : ¬(truthyQ s.low = true ∧ b.low < s.low.getD 0))
    (hc : truthyQ s.coc = true) (hcl : b.close > s.coc.getD 0) (hp : s.plot = false) :
    (downFormation s b).state.trend = some .UP ∧
    (downFormation s b).state.coc = s.low ∧
    (downFormation s b).state.low = none ∧
    (downFormation s b).state.spl = none ∧
    (downFormation s b).state.high = some b.high ∧
    (downFormation s b).state.high_dt = some b.dt ∧
    (downFormation s b).state.bars_since = 0 ∧
    (downFormation s b).state.sph = s.sph ∧
    (downFormation s b).events =
      (if s.on_reversal then [.reversal s.symbol b.dt (some .UP) b.close s.low s.coc]
       else []) ∧
    (downFormation s b).err = none := by
  unfold downFormation
  dsimp only
  rw [if_neg hl]
  repeat' split
  all_goals simp_all [switch_uptrend, plotStep]

/-- The DOWN reversal bar with plotting on but no DataFrame bound. -/
theorem downFormation_reversal_raises (s : SwingState) (b : Bar)
    (hl : ¬(truthyQ s.low = true ∧ b.low < s.low.getD 0))
    (hc : truthyQ s.coc = true) (hcl : b.close > s.coc.getD 0)
    (hp : s.plot = true) (hdf : s.df = none) :
    (downFormation s b).err = some "DataFrame not found." ∧
    (downFormation s b).events = [] ∧
    (downFormation s b).state.trend = some .UP ∧
    (downFormation s b).state.coc = s.low ∧
    (downFormation s b).state.low = none ∧
    (downFormation s b).state.spl = none ∧
    (downFormation s b).state.high = some b.high ∧
    (downFormation s b).state.bars_since = 0 := by
  unfold downFormation
  dsimp only
  rw [if_neg hl]
  repeat' split
  all_goals simp_all [switch_uptrend, plotStep, line_end_dt]

/-- A pivot-forming DOWN bar that does not also reverse ends with the counter
at 1, mirror of the UP case. -/
theorem downFormation_forms_pivot (s : SwingState) (b : Bar)
    (hspl : s.spl = none) :
    (downFormation s b).state.spl ≠ none → (downFormation s b).state.bars_since = 1 := by
  unfold downFormation
  dsimp only
  repeat' split
  all_goals intro hne
  all_goals simp_all


/-! ### Lemmas about `identify` and its phases -/

theorem identify_none (s : SwingState) (b : Bar) (h : s.trend = none) :
    identify s b = identifyNone s b := by
  unfold identify
  rw [h]

theorem identify_up (s : SwingState) (b : Bar) (h : s.trend = some .UP) :
    identify s b = identifyUp s b := by
  unfold identify
  rw [h]

theorem identify_down (s : SwingState) (b : Bar) (h : s.trend = some .DOWN) :
    identify s b = identifyDown s b := by
  unfold identify
  rw [h]

@[simp] theorem identifyNone_sph (s : SwingState) (b : Bar) :
    (identifyNone s b).state.sph = s.sph := by
  unfold identifyNone
  dsimp only
  repeat' split
  all_goals simp

@[simp] theorem identifyNone_spl (s : SwingState) (b : Bar) :
    (identifyNone s b).state.spl = s.spl := by
  unfold identifyNone
  dsimp only
  repeat' split
  all_goals simp

theorem identifyNone_coc_of_trend_none (s : SwingState) (b : Bar) :
    (identifyNone s b).state.trend = none → (identifyNone s b).state.coc = s.coc := by
  unfold identifyNone
  dsimp only
  repeat' split
  all_goals intro h
  all_goals simp_all

@[simp] theorem identifyUp_spl (s : SwingState) (b : Bar) :
    (identifyUp s b).state.spl = s.spl := by
  unfold identifyUp
  dsimp only
  repeat' split
  all_goals simp

@[simp] theorem identifyDown_sph (s : SwingState) (b : Bar) :
    (identifyDown s b).state.sph = s.sph := by
  unfold identifyDown
  dsimp only
  repeat' split
  all_goals simp

theorem identifyUp_trend_or (s : SwingState) (b : Bar) (hU : s.trend = some .UP) :
    (identifyUp s b).state.trend = some .UP ∨
      ((identifyUp s b).state.trend = some .DOWN ∧ (identifyUp s b).state.sph = none) := by
  unfold identifyUp
  dsimp only
  split
  · split
    · left
      simp [hU]
    · rcases upFormation_trend_or (upPendingUpdate s b) b with h | h
      · left
        rw [h, upPendingUpdate_trend]
        exact hU
      · right
        exact h
  · rcases upFormation_trend_or s b with h | h
    · left
      exact h.trans hU
    · right
      exact h

theorem identifyDown_trend_or (s : SwingState) (b : Bar) (hD : s.trend = some .DOWN) :
    (identifyDown s b).state.trend = some .DOWN ∨
      ((identifyDown s b).state.trend = some .UP ∧ (identifyDown s b).state.spl = none) := by
  unfold identifyDown
  dsimp only
  split
  · split
    · left
      simp [hD]
    · rcases downFormation_trend_or (downPendingUpdate s b) b with h | h
      · left
        rw [h, downPendingUpdate_trend]
        exact hD
      · right
        exact h
  · rcases downFormation_trend_or s b with h | h
    · left
      exact h.trans hD
    · right
      exact h


/-! ### Further helper lemmas -/

theorem truthyQ_ne_none {x : Option ℚ} (h : truthyQ x = true) : x ≠ none := by
  cases x <;> simp_all [truthyQ]

theorem Event.isReversal_eq_false {e : Event} (h : e.isBreakout = true) :
    e.isReversal = false := by
  cases e <;> simp_all [Event.isBreakout, Event.isReversal]

/-- When `coc` is falsy the UP formation-watch part cannot reverse and emits
nothing. -/
theorem upFormation_no_reversal (s : SwingState) (b : Bar)
    (hnc : truthyQ s.coc = false) :
    (upFormation s b).state.trend = s.trend ∧ (upFormation s b).events = [] := by
  unfold upFormation
  dsimp only
  repeat' split
  all_goals simp_all

/-- When `coc` is falsy the DOWN formation-watch part cannot reverse and
emits nothing. -/
theorem downFormation_no_reversal (s : SwingState) (b : Bar)
    (hnc : truthyQ s.coc = false) :
    (downFormation s b).state.trend = s.trend ∧ (downFormation s b).events = [] := by
  unfold downFormation
  dsimp only
  repeat' split
  all_goals simp_all

/-- If the UP formation-watch part flipped the trend, it was the switch and
the counter is 0. -/
theorem upFormation_trend_down_bars (s : SwingState) (b : Bar)
    (hs : s.trend ≠ some .DOWN) :
    (upFormation s b).state.trend = some .DOWN → (upFormation s b).state.bars_since = 0 := by
  unfold upFormation
  dsimp only
  repeat' split
  all_goals intro h
  all_goals simp_all

/-- If the DOWN formation-watch part flipped the trend, the counter is 0. -/
theorem downFormation_trend_up_bars (s : SwingState) (b : Bar)
    (hs : s.trend ≠ some .UP) :
    (downFormation s b).state.trend = some .UP → (downFormation s b).state.bars_since = 0 := by
  unfold downFormation
  dsimp only
  repeat' split
  all_goals intro h
  all_goals simp_all


/-! ### Claim theorems -/

/-- C4: `unpack (pack s)` restores the engine state exactly (the hooks,
excluded from the mapping, keep their values), so processing any
continuation of bars from the round-tripped state yields the same final
state, the same events and the same error as processing it without the
round trip. -/
theorem claim_C4_snapshot_roundtrip (s : SwingState) (bars : List Bar) :
    unpack s (pack s) = s ∧
      processBars (unpack s (pack s)) bars = processBars s bars :=
  ⟨rfl, rfl⟩

/-- C8 counterexample: `reset` does not clear the identifying symbol — after
`reset` on a state whose symbol is `"TCS"`, the symbol is still `"TCS"`,
contradicting the claim that every state field including the symbol returns
to its unset value. -/
theorem claim_C8_counterexample :
    (reset { demoState with symbol := some "TCS" }).symbol = some "TCS" ∧
      ¬(reset { demoState with symbol := some "TCS" }).symbol = none :=
  ⟨rfl, by decide⟩

/-- C8 amended: `reset` clears the trend, the tracked extremes, the CoCh
level, both pivots, all their timestamps and the bar counter, and — only when
plotting is enabled — drops the DataFrame and the recorded annotation lines
and colors; the identifying symbol, both thresholds, the plot flag and the
registered hooks are left unchanged. -/
theorem claim_C8_reset (s : SwingState) :
    (reset s).trend = none ∧
    (reset s).high = none ∧
    (reset s).low = none ∧
    (reset s).coc = none ∧
    (reset s).sph = none ∧
    (reset s).spl = none ∧
    (reset s).high_dt = none ∧
    (reset s).low_dt = none ∧
    (reset s).coc_dt = none ∧
    (reset s).sph_dt = none ∧
    (reset s).spl_dt = none ∧
    (reset s).bars_since = 0 ∧
    (reset s).symbol = s.symbol ∧
    (reset s).retrace_threshold = s.retrace_threshold ∧
    (reset s).sideways_threshold = s.sideways_threshold ∧
    (reset s).plot = s.plot ∧
    (reset s).on_breakout = s.on_breakout ∧
    (reset s).on_reversal = s.on_reversal ∧
    (reset s).plot_lines = (if s.plot then [] else s.plot_lines) ∧
    (reset s).plot_colors = (if s.plot then [] else s.plot_colors) ∧
    (reset s).df = (if s.plot then none else s.df) := by
  unfold reset
  dsimp only
  split <;> simp_all

/-- C7 counterexample: with the default threshold 20, a pivot-formation bar
followed by 21 quiet bars leaves `barsSincePivot = 22`, not 21 (the
formation bar itself already ends with the counter at 1), even though
`isSideways()` is indeed true. -/
theorem claim_C7_counterexample :
    is_sideways (processBars demoState (formationScenario 21)).1 = true ∧
      (processBars demoState (formationScenario 21)).1.bars_since = 22 :=
  ⟨rfl, rfl⟩

/-- C7 amended: `isSideways()` is the pure comparison
`barsSincePivot > sidewaysThreshold`; with the default threshold 20 it first
becomes true at `barsSincePivot = 21`, which is reached on the 20th quiet
bar after the pivot-formation bar (the formation bar ends with the counter
already at 1). -/
theorem claim_C7_sideways :
    (∀ s : SwingState, is_sideways s = true ↔ (s.bars_since : Int) > s.sideways_threshold) ∧
    (processBars demoState (formationScenario 20)).1.bars_since = 21 ∧
    is_sideways (processBars demoState (formationScenario 20)).1 = true ∧
    (processBars demoState (formationScenario 19)).1.bars_since = 20 ∧
    is_sideways (processBars demoState (formationScenario 19)).1 = false := by
  refine ⟨fun s => ?_, rfl, rfl, rfl, rfl⟩
  simp [is_sideways]


/-- C5: in every state reachable from a fresh engine by `identify` and
`reset` calls, `sph` is set only under an UP trend, `spl` only under a DOWN
trend (so they are never both set), and while the trend is unset, `coc`,
`sph` and `spl` are all unset. -/
theorem claim_C5_pivot_trend_invariant (s : SwingState) (hs : Reachable s) :
    (s.sph ≠ none → s.trend = some .UP) ∧
    (s.spl ≠ none → s.trend = some .DOWN) ∧
    (s.trend = none → s.coc = none ∧ s.sph = none ∧ s.spl = none) := by
  induction hs with
  | init pct thr =>
    refine ⟨fun h => ?_, fun h => ?_, fun _ => ⟨rfl, rfl, rfl⟩⟩ <;> exact absurd rfl h
  | reset s' hR ih =>
    unfold reset
    dsimp only
    split <;>
      exact ⟨fun h => absurd rfl h, fun h => absurd rfl h, fun _ => ⟨rfl, rfl, rfl⟩⟩
  | step s' b hR ih =>
    rcases htr : s'.trend with _ | tr
    · obtain ⟨hcoc, hsph, hspl⟩ := ih.2.2 htr
      rw [identify_none s' b htr]
      refine ⟨fun h => ?_, fun h => ?_, fun h => ⟨?_, ?_, ?_⟩⟩
      · rw [identifyNone_sph, hsph] at h
        exact absurd rfl h
      · rw [identifyNone_spl, hspl] at h
        exact absurd rfl h
      · rw [identifyNone_coc_of_trend_none s' b h, hcoc]
      · rw [identifyNone_sph, hsph]
      · rw [identifyNone_spl, hspl]
    · cases tr
      · have hspl : s'.spl = none := by
          by_contra hne
          have hd := ih.2.1 hne
          rw [htr] at hd
          simp at hd
        rw [identify_up s' b htr]
        rcases identifyUp_trend_or s' b htr with h | ⟨h1, h2⟩
        · refine ⟨fun _ => h, fun hne => ?_, fun hnone => ?_⟩
          · rw [identifyUp_spl, hspl] at hne
            exact absurd rfl hne
          · rw [h] at hnone
            simp at hnone
        · refine ⟨fun hne => ?_, fun hne => ?_, fun hnone => ?_⟩
          · rw [h2] at hne
            exact absurd rfl hne
          · rw [identifyUp_spl, hspl] at hne
            exact absurd rfl hne
          · rw [h1] at hnone
            simp at hnone
      · have hsph : s'.sph = none := by
          by_contra hne
          have hd := ih.1 hne
          rw [htr] at hd
          simp at hd
        rw [identify_down s' b htr]
        rcases identifyDown_trend_or s' b htr with h | ⟨h1, h2⟩
        · refine ⟨fun hne => ?_, fun _ => h, fun hnone => ?_⟩
          · rw [identifyDown_sph, hsph] at hne
            exact absurd rfl hne
          · rw [h] at hnone
            simp at hnone
        · refine ⟨fun hne => ?_, fun hne => ?_, fun hnone => ?_⟩
          · rw [identifyDown_sph, hsph] at hne
            exact absurd rfl hne
          · rw [h2] at hne
            exact absurd rfl hne
          · rw [h1] at hnone
            simp at hnone

/-- C5 witness: the invariant instantiated at the reachable state obtained
from a fresh default engine by processing the two Up-start bars. -/
theorem claim_C5_witness :
    (((identify (identify (Swing.init (some 5) 20) ⟨0, 10, 8, 9⟩).state
        ⟨1, 12, 9, 11⟩).state.sph ≠ none →
      (identify (identify (Swing.init (some 5) 20) ⟨0, 10, 8, 9⟩).state
        ⟨1, 12, 9, 11⟩).state.trend = some .UP) ∧
     ((identify (identify (Swing.init (some 5) 20) ⟨0, 10, 8, 9⟩).state
        ⟨1, 12, 9, 11⟩).state.spl ≠ none →
      (identify (identify (Swing.init (some 5) 20) ⟨0, 10, 8, 9⟩).state
        ⟨1, 12, 9, 11⟩).state.trend = some .DOWN) ∧
     ((identify (identify (Swing.init (some 5) 20) ⟨0, 10, 8, 9⟩).state
        ⟨1, 12, 9, 11⟩).state.trend = none →
      (identify (identify (Swing.init (some 5) 20) ⟨0, 10, 8, 9⟩).state
        ⟨1, 12, 9, 11⟩).state.coc = none ∧
      (identify (identify (Swing.init (some 5) 20) ⟨0, 10, 8, 9⟩).state
        ⟨1, 12, 9, 11⟩).state.sph = none ∧
      (identify (identify (Swing.init (some 5) 20) ⟨0, 10, 8, 9⟩).state
        ⟨1, 12, 9, 11⟩).state.spl = none)) :=
  have h := claim_C5_pivot_trend_invariant _
    (Reachable.step _ ⟨1, 12, 9, 11⟩ (Reachable.step _ ⟨0, 10, 8, 9⟩
      (Reachable.init (some 5) 20)))
  ⟨h.1, h.2.1, h.2.2⟩


/-- C10: a tracked level of exactly 0 is falsy in the source's truthiness
checks: with an UP trend and `sph = 0` the whole pending-pivot block — and in
particular the retracement division by `sph` — is skipped, the bar going
straight to the formation/reversal-watch part and emitting no breakout; with
`coc = 0` the reversal check never fires, whatever the close.  Mirrors for
the DOWN trend. -/
theorem claim_C10_zero_levels (s : SwingState) (b : Bar) :
    (s.trend = some .UP → s.sph = some 0 →
      identify s b = upFormation s b ∧
        ∀ e ∈ (identify s b).events, e.isBreakout = false) ∧
    (s.trend = some .UP → s.coc = some 0 →
      (identify s b).state.trend = some .UP ∧
        ∀ e ∈ (identify s b).events, e.isReversal = false) ∧
    (s.trend = some .DOWN → s.spl = some 0 →
      identify s b = downFormation s b ∧
        ∀ e ∈ (identify s b).events, e.isBreakout = false) ∧
    (s.trend = some .DOWN → s.coc = some 0 →
      (identify s b).state.trend = some .DOWN ∧
        ∀ e ∈ (identify s b).events, e.isReversal = false) := by
  refine ⟨fun hU hz => ?_, fun hU hz => ?_, fun hD hz => ?_, fun hD hz => ?_⟩
  · have h1 : identify s b = upFormation s b := by
      rw [identify_up s b hU]
      unfold identifyUp
      rw [hz]
      simp [truthyQ]
    rw [h1]
    exact ⟨rfl, upFormation_events_no_breakout s b⟩
  · rw [identify_up s b hU]
    unfold identifyUp
    dsimp only
    split
    · split
      · constructor
        · simp [hU]
        · intro e he
          exact Event.isReversal_eq_false (upBreakout_events_isBreakout _ b e he)
      · have hnc : truthyQ (upPendingUpdate s b).coc = false := by
          rw [upPendingUpdate_coc, hz]
          rfl
        obtain ⟨h1, h2⟩ := upFormation_no_reversal _ b hnc
        rw [h1, h2, upPendingUpdate_trend, hU]
        exact ⟨rfl, by simp⟩
    · have hnc : truthyQ s.coc = false := by
        rw [hz]
        rfl
      obtain ⟨h1, h2⟩ := upFormation_no_reversal s b hnc
      rw [h1, h2, hU]
      exact ⟨rfl, by simp⟩
  · have h1 : identify s b = downFormation s b := by
      rw [identify_down s b hD]
      unfold identifyDown
      rw [hz]
      simp [truthyQ]
    rw [h1]
    exact ⟨rfl, downFormation_events_no_breakout s b⟩
  · rw [identify_down s b hD]
    unfold identifyDown
    dsimp only
    split
    · split
      · constructor
        · simp [hD]
        · intro e he
          exact Event.isReversal_eq_false (downBreakout_events_isBreakout _ b e he)
      · have hnc : truthyQ (downPendingUpdate s b).coc = false := by
          rw [downPendingUpdate_coc, hz]
          rfl
        obtain ⟨h1, h2⟩ := downFormation_no_reversal _ b hnc
        rw [h1, h2, downPendingUpdate_trend, hD]
        exact ⟨rfl, by simp⟩
    · have hnc : truthyQ s.coc = false := by
        rw [hz]
        rfl
      obtain ⟨h1, h2⟩ := downFormation_no_reversal s b hnc
      rw [h1, h2, hD]
      exact ⟨rfl, by simp⟩

/-- C10 witness: a state with `trend = UP`, `sph = 0` and `coc = 0` on a bar
whose close exceeds the zero pivot and undercuts the zero CoCh: the bar is
handled entirely by the formation part, no breakout, and the trend stays
UP with no reversal. -/
theorem claim_C10_witness :
    (identify zeroLevelState zeroBar = upFormation zeroLevelState zeroBar) ∧
    (∀ e ∈ (identify zeroLevelState zeroBar).events, e.isBreakout = false) ∧
    (identify zeroLevelState zeroBar).state.trend = some .UP ∧
    (∀ e ∈ (identify zeroLevelState zeroBar).events, e.isReversal = false) :=
  have h := claim_C10_zero_levels zeroLevelState zeroBar
  ⟨(h.1 rfl rfl).1, (h.1 rfl rfl).2, (h.2.1 rfl rfl).1, (h.2.1 rfl rfl).2⟩


/-- C6: on a bar with a truthy pending pivot, `identify` is exactly the
pending-pivot update followed by the breakout block when the close moves
beyond the pivot — so the same bar never runs the formation/reversal-watch
part: the trend is unchanged, the pivot is cleared, no opposite pivot
appears and no reversal event fires — and exactly the formation/
reversal-watch part on the updated state when no breakout occurred. -/
theorem claim_C6_breakout_terminal (s : SwingState) (b : Bar) :
    (s.trend = some .UP → truthyQ s.sph = true →
      (b.close > s.sph.getD 0 →
        identify s b = upBreakout (upPendingUpdate s b) b ∧
        (identify s b).state.trend = some .UP ∧
        (identify s b).state.sph = none ∧
        (identify s b).state.spl = s.spl ∧
        (∀ e ∈ (identify s b).events, e.isReversal = false)) ∧
      (¬b.close > s.sph.getD 0 →
        identify s b = upFormation (upPendingUpdate s b) b)) ∧
    (s.trend = some .DOWN → truthyQ s.spl = true →
      (b.close < s.spl.getD 0 →
        identify s b = downBreakout (downPendingUpdate s b) b ∧
        (identify s b).state.trend = some .DOWN ∧
        (identify s b).state.spl = none ∧
        (identify s b).state.sph = s.sph ∧
        (∀ e ∈ (identify s b).events, e.isReversal = false)) ∧
      (¬b.close < s.spl.getD 0 →
        identify s b = downFormation (downPendingUpdate s b) b)) := by
  constructor
  · intro hU hsp
    rw [identify_up s b hU]
    unfold identifyUp
    rw [if_pos hsp]
    dsimp only
    simp only [upPendingUpdate_sph]
    constructor
    · intro hb
      rw [if_pos hb]
      refine ⟨rfl, ?_, by simp, by simp, ?_⟩
      · simp [hU]
      · intro e he
        exact Event.isReversal_eq_false (upBreakout_events_isBreakout _ b e he)
    · intro hb
      rw [if_neg hb]
  · intro hD hsp
    rw [identify_down s b hD]
    unfold identifyDown
    rw [if_pos hsp]
    dsimp only
    simp only [downPendingUpdate_spl]
    constructor
    · intro hb
      rw [if_pos hb]
      refine ⟨rfl, ?_, by simp, by simp, ?_⟩
      · simp [hD]
      · intro e he
        exact Event.isReversal_eq_false (downBreakout_events_isBreakout _ b e he)
    · intro hb
      rw [if_neg hb]

/-- C6 witness: the pivot-plus-breakout scenario — with `sph = 12` pending
and a bar closing at 12.5, `identify` is the pending update followed by the
breakout block, the trend stays UP, the pivot is cleared and no reversal
fires. -/
theorem claim_C6_witness :
    (identify pendState bosBar = upBreakout (upPendingUpdate pendState bosBar) bosBar ∧
     (identify pendState bosBar).state.trend = some .UP ∧
     (identify pendState bosBar).state.sph = none ∧
     (identify pendState bosBar).state.spl = pendState.spl ∧
     (∀ e ∈ (identify pendState bosBar).events, e.isReversal = false)) ∧
    truthyQ pendState.sph = true ∧ bosBar.close > pendState.sph.getD 0 := by
  have hb : bosBar.close > pendState.sph.getD 0 := by
    have h1 : pendState.sph.getD 0 = 12 := rfl
    have h2 : bosBar.close = 25 / 2 := rfl
    rw [h1, h2]
    norm_num
  exact ⟨((claim_C6_breakout_terminal pendState bosBar).1 rfl rfl).1 hb, rfl, hb⟩


/-- C3 counterexample: on the bar that forms the pivot `sph = 12` the
counter ends at 1, not 0 — the formation resets it to 0 and the pullback
accumulation of the very same bar increments it. -/
theorem claim_C3_counterexample :
    (processBars demoState upStartBars).1.sph = none ∧
    pendState.sph = some 12 ∧
    pendState.bars_since = 1 ∧
    ¬pendState.bars_since = 0 := by
  refine ⟨rfl, rfl, rfl, ?_⟩
  have h : pendState.bars_since = 1 := rfl
  rw [h]
  simp

/-- C3 amended: the counter is 0 after a breakout bar and after any bar that
flips the trend (a reversal); after a bar on which a new pivot forms and
survives the bar it is 1 (formation resets it and the same-bar accumulation
step increments it); and on a pending-pivot bar with no breakout and no
reversal it increases by exactly one. -/
theorem claim_C3_bars_since (s : SwingState) (b : Bar) :
    (s.trend = some .UP →
      (truthyQ s.sph = true → b.close > s.sph.getD 0 →
        (identify s b).state.bars_since = 0) ∧
      ((identify s b).state.trend = some .DOWN → (identify s b).state.bars_since = 0) ∧
      (s.sph = none → (identify s b).state.sph ≠ none →
        (identify s b).state.bars_since = 1) ∧
      (truthyQ s.sph = true → ¬b.close > s.sph.getD 0 →
        (identify s b).state.trend = some .UP →
        (identify s b).state.bars_since = s.bars_since + 1)) ∧
    (s.trend = some .DOWN →
      (truthyQ s.spl = true → b.close < s.spl.getD 0 →
        (identify s b).state.bars_since = 0) ∧
      ((identify s b).state.trend = some .UP → (identify s b).state.bars_since = 0) ∧
      (s.spl = none → (identify s b).state.spl ≠ none →
        (identify s b).state.bars_since = 1) ∧
      (truthyQ s.spl = true → ¬b.close < s.spl.getD 0 →
        (identify s b).state.trend = some .DOWN →
        (identify s b).state.bars_since = s.bars_since + 1)) := by
  constructor
  · intro hU
    refine ⟨fun hsp hb => ?_, fun hd => ?_, fun hsph hne => ?_, fun hsp hnb hup => ?_⟩
    · rw [identify_up s b hU]
      unfold identifyUp
      rw [if_pos hsp]
      dsimp only
      simp only [upPendingUpdate_sph]
      rw [if_pos hb]
      simp
    · rw [identify_up s b hU] at hd ⊢
      unfold identifyUp at hd ⊢
      dsimp only at hd ⊢
      by_cases hsp : truthyQ s.sph = true
      · rw [if_pos hsp] at hd ⊢
        by_cases hb : b.close > (upPendingUpdate s b).sph.getD 0
        · rw [if_pos hb] at hd ⊢
          simp
        · rw [if_neg hb] at hd ⊢
          refine upFormation_trend_down_bars _ b ?_ hd
          rw [upPendingUpdate_trend, hU]
          simp
      · rw [if_neg hsp] at hd ⊢
        refine upFormation_trend_down_bars s b ?_ hd
        rw [hU]
        simp
    · have hcond : ¬(truthyQ s.sph = true) := by
        rw [hsph]
        simp [truthyQ]
      rw [identify_up s b hU] at hne ⊢
      unfold identifyUp at hne ⊢
      rw [if_neg hcond] at hne ⊢
      exact upFormation_forms_pivot s b hsph hne
    · rw [identify_up s b hU] at hup ⊢
      unfold identifyUp at hup ⊢
      rw [if_pos hsp] at hup ⊢
      dsimp only at hup ⊢
      have hnb' : ¬b.close > (upPendingUpdate s b).sph.getD 0 := by
        rw [upPendingUpdate_sph]
        exact hnb
      rw [if_neg hnb'] at hup ⊢
      by_cases hrev : truthyQ (upPendingUpdate s b).coc = true ∧
          b.close < (upPendingUpdate s b).coc.getD 0
      · exfalso
        have hd := (upFormation_reversal_trend (upPendingUpdate s b) b
          (upPendingUpdate_high_done s b) hrev.1 hrev.2).1
        rw [hd] at hup
        simp at hup
      · have hsne : ¬(upPendingUpdate s b).sph = none :=
          truthyQ_ne_none (by rw [upPendingUpdate_sph]; exact hsp)
        rw [upFormation_stay (upPendingUpdate s b) b
          (upPendingUpdate_high_done s b) hsne (upPendingUpdate_low_done s b) hrev]
        simp
  · intro hD
    refine ⟨fun hsp hb => ?_, fun hd => ?_, fun hspl hne => ?_, fun hsp hnb hup => ?_⟩
    · rw [identify_down s b hD]
      unfold identifyDown
      rw [if_pos hsp]
      dsimp only
      simp only [downPendingUpdate_spl]
      rw [if_pos hb]
      simp
    · rw [identify_down s b hD] at hd ⊢
      unfold identifyDown at hd ⊢
      dsimp only at hd ⊢
      by_cases hsp : truthyQ s.spl = true
      · rw [if_pos hsp] at hd ⊢
        by_cases hb : b.close < (downPendingUpdate s b).spl.getD 0
        · rw [if_pos hb] at hd ⊢
          simp
        · rw [if_neg hb] at hd ⊢
          refine downFormation_trend_up_bars _ b ?_ hd
          rw [downPendingUpdate_trend, hD]
          simp
      · rw [if_neg hsp] at hd ⊢
        refine downFormation_trend_up_bars s b ?_ hd
        rw [hD]
        simp
    · have hcond : ¬(truthyQ s.spl = true) := by
        rw [hspl]
        simp [truthyQ]
      rw [identify_down s b hD] at hne ⊢
      unfold identifyDown at hne ⊢
      rw [if_neg hcond] at hne ⊢
      exact downFormation_forms_pivot s b hspl hne
    · rw [identify_down s b hD] at hup ⊢
      unfold identifyDown at hup ⊢
      rw [if_pos hsp] at hup ⊢
      dsimp only at hup ⊢
      have hnb' : ¬b.close < (downPendingUpdate s b).spl.getD 0 := by
        rw [downPendingUpdate_spl]
        exact hnb
      rw [if_neg hnb'] at hup ⊢
      by_cases hrev : truthyQ (downPendingUpdate s b).coc = true ∧
          b.close > (downPendingUpdate s b).coc.getD 0
      · exfalso
        have hd := (downFormation_reversal_trend (downPendingUpdate s b) b
          (downPendingUpdate_low_done s b) hrev.1 hrev.2).1
        rw [hd] at hup
        simp at hup
      · have hsne : ¬(downPendingUpdate s b).spl = none :=
          truthyQ_ne_none (by rw [downPendingUpdate_spl]; exact hsp)
        rw [downFormation_stay (downPendingUpdate s b) b
          (downPendingUpdate_low_done s b) hsne (downPendingUpdate_high_done s b) hrev]
        simp

/-- C3 witness: a quiet bar on the pending-pivot state (pivot 12 pending,
counter at 1, no breakout, no reversal) raises the counter to exactly 2. -/
theorem claim_C3_witness :
    (identify pendState (quietBar 3)).state.bars_since = pendState.bars_since + 1 ∧
      pendState.bars_since + 1 = 2 := by
  have hnb : ¬(quietBar 3).close > pendState.sph.getD 0 := by
    have h1 : pendState.sph.getD 0 = 12 := rfl
    have h2 : (quietBar 3).close = 10 := rfl
    rw [h1, h2]
    norm_num
  have hup : (identify pendState (quietBar 3)).state.trend = some .UP := rfl
  exact ⟨((claim_C3_bars_since pendState (quietBar 3)).1 rfl).2.2.2 rfl hnb hup, rfl⟩


/-- C2 counterexample: in a DOWN trend with negative price levels (reached
from a fresh engine by four bars), a breakout whose retracement fraction is
`-1/3` — magnitude well above the configured threshold `1/20` — is
nevertheless suppressed, because the source compares the signed value
without `abs` in the DOWN branch: `coc` is unchanged and no event fires,
where the claim demands a non-suppressed breakout. -/
theorem claim_C2_counterexample :
    negState.trend = some .DOWN ∧
    truthyQ negState.spl = true ∧
    truthyQ negState.retrace_threshold = true ∧
    negState.on_breakout = true ∧
    negBar4.close < negState.spl.getD 0 ∧
    ¬(|((downPendingUpdate negState negBar4).high.getD 0 - negState.spl.getD 0) /
        negState.spl.getD 0| < negState.retrace_threshold.getD 0) ∧
    (identify negState negBar4).events = [] ∧
    (identify negState negBar4).state.coc = negState.coc := by
  refine ⟨rfl, rfl, by with_unfolding_all rfl, rfl, ?_, ?_,
    by with_unfolding_all rfl, by with_unfolding_all rfl⟩
  · have h1 : negState.spl.getD 0 = -12 := rfl
    have h2 : negBar4.close = -13 := rfl
    rw [h1, h2]
    norm_num
  · with_unfolding_all decide

/-- C2 amended: on a breakout bar with a truthy retrace threshold the pivot
is always cleared and the counter reset; in the UP trend the breakout is
suppressed (no `coc` update, no event) iff `|retracePct| < threshold`, but
in the DOWN trend iff the *signed* `retracePct < threshold` — the source
omits `abs` there, so a retracement whose fraction is negative (tracked high
below the pivot, e.g. with negative prices) is suppressed regardless of its
magnitude. -/
theorem claim_C2_retrace_filter (s : SwingState) (b : Bar) :
    (s.trend = some .UP → truthyQ s.sph = true → b.close > s.sph.getD 0 →
      truthyQ s.retrace_threshold = true → s.plot = false → s.on_breakout = true →
      ((identify s b).state.sph = none ∧ (identify s b).state.bars_since = 0) ∧
      (|((upPendingUpdate s b).low.getD 0 - s.sph.getD 0) / s.sph.getD 0| <
          s.retrace_threshold.getD 0 →
        (identify s b).state.coc = s.coc ∧ (identify s b).events = []) ∧
      (¬(|((upPendingUpdate s b).low.getD 0 - s.sph.getD 0) / s.sph.getD 0| <
          s.retrace_threshold.getD 0) →
        (identify s b).state.coc = (upPendingUpdate s b).low ∧
        (identify s b).events =
          [.breakout s.symbol b.dt (some .UP) b.close s.sph ((upPendingUpdate s b).low)])) ∧
    (s.trend = some .DOWN → truthyQ s.spl = true → b.close < s.spl.getD 0 →
      truthyQ s.retrace_threshold = true → s.plot = false → s.on_breakout = true →
      ((identify s b).state.spl = none ∧ (identify s b).state.bars_since = 0) ∧
      (((downPendingUpdate s b).high.getD 0 - s.spl.getD 0) / s.spl.getD 0 <
          s.retrace_threshold.getD 0 →
        (identify s b).state.coc = s.coc ∧ (identify s b).events = []) ∧
      (¬(((downPendingUpdate s b).high.getD 0 - s.spl.getD 0) / s.spl.getD 0 <
          s.retrace_threshold.getD 0) →
        (identify s b).state.coc = (downPendingUpdate s b).high ∧
        (identify s b).events =
          [.breakout s.symbol b.dt (some .DOWN) b.close s.spl
            ((downPendingUpdate s b).high)])) := by
  constructor
  · intro hU hsp hb ht hp hcb
    rw [identify_up s b hU]
    unfold identifyUp
    rw [if_pos hsp]
    dsimp only
    have hb' : b.close > (upPendingUpdate s b).sph.getD 0 := by
      rw [upPendingUpdate_sph]
      exact hb
    rw [if_pos hb']
    refine ⟨⟨by simp, by simp⟩, fun hlt => ?_, fun hge => ?_⟩
    · rw [upBreakout_suppressed (upPendingUpdate s b) b
        (by rw [upPendingUpdate_retrace_threshold]; exact ht)
        (by rw [upPendingUpdate_sph, upPendingUpdate_retrace_threshold]; exact hlt)]
      exact ⟨by simp, rfl⟩
    · have hneg : ¬(truthyQ (upPendingUpdate s b).retrace_threshold = true ∧
          |((upPendingUpdate s b).low.getD 0 - (upPendingUpdate s b).sph.getD 0) /
            (upPendingUpdate s b).sph.getD 0| <
            (upPendingUpdate s b).retrace_threshold.getD 0) := by
        rw [upPendingUpdate_sph, upPendingUpdate_retrace_threshold]
        intro hcontra
        exact hge hcontra.2
      rw [upBreakout_fired (upPendingUpdate s b) b
        (by rw [upPendingUpdate_plot]; exact hp) hneg]
      constructor
      · simp
      · simp [upPendingUpdate_on_breakout, hcb, upPendingUpdate_symbol,
          upPendingUpdate_trend, hU, upPendingUpdate_sph]
  · intro hD hsp hb ht hp hcb
    rw [identify_down s b hD]
    unfold identifyDown
    rw [if_pos hsp]
    dsimp only
    have hb' : b.close < (downPendingUpdate s b).spl.getD 0 := by
      rw [downPendingUpdate_spl]
      exact hb
    rw [if_pos hb']
    refine ⟨⟨by simp, by simp⟩, fun hlt => ?_, fun hge => ?_⟩
    · rw [downBreakout_suppressed (downPendingUpdate s b) b
        (by rw [downPendingUpdate_retrace_threshold]; exact ht)
        (by rw [downPendingUpdate_spl, downPendingUpdate_retrace_threshold]; exact hlt)]
      exact ⟨by simp, rfl⟩
    · have hneg : ¬(truthyQ (downPendingUpdate s b).retrace_threshold = true ∧
          ((downPendingUpdate s b).high.getD 0 - (downPendingUpdate s b).spl.getD 0) /
            (downPendingUpdate s b).spl.getD 0 <
            (downPendingUpdate s b).retrace_threshold.getD 0) := by
        rw [downPendingUpdate_spl, downPendingUpdate_retrace_threshold]
        intro hcontra
        exact hge hcontra.2
      rw [downBreakout_fired (downPendingUpdate s b) b
        (by rw [downPendingUpdate_plot]; exact hp) hneg]
      constructor
      · simp
      · simp [downPendingUpdate_on_breakout, hcb, downPendingUpdate_symbol,
          downPendingUpdate_trend, hD, downPendingUpdate_spl]

/-- C2 witness: the pivot-plus-breakout scenario — pivot 12, pullback low 9,
retracement `-1/4`, magnitude above the threshold `1/20` — fires: `coc`
moves to 9 and the breakout event carries the broken pivot 12 and the new
CoCh 9. -/
theorem claim_C2_witness :
    ((identify pendState bosBar).state.sph = none ∧
      (identify pendState bosBar).state.bars_since = 0) ∧
    (identify pendState bosBar).state.coc = (upPendingUpdate pendState bosBar).low ∧
    (identify pendState bosBar).events =
      [.breakout pendState.symbol bosBar.dt (some .UP) bosBar.close pendState.sph
        ((upPendingUpdate pendState bosBar).low)] := by
  have hb : bosBar.close > pendState.sph.getD 0 := by
    have h1 : pendState.sph.getD 0 = 12 := rfl
    have h2 : bosBar.close = 25 / 2 := rfl
    rw [h1, h2]
    norm_num
  have hge : ¬(|((upPendingUpdate pendState bosBar).low.getD 0 - pendState.sph.getD 0) /
      pendState.sph.getD 0| < pendState.retrace_threshold.getD 0) := by
    with_unfolding_all decide
  have h := (claim_C2_retrace_filter pendState bosBar).1 rfl rfl hb
    (by with_unfolding_all rfl) rfl rfl
  exact ⟨h.1, h.2.2 hge⟩


/-- C1 counterexample: with trend UP, `coc = 8` set, no pending pivot (so no
breakout is possible on the bar) and a close of 6 below `coc`, a bar that
also makes a new tracked high (13 > 12) does *not* reverse: the new-high
branch runs instead of the reversal watch, the trend stays UP and no event
fires — where the claim demands a switch to DOWN and an `onReversal` call. -/
theorem claim_C1_counterexample :
    cocState.trend = some .UP ∧
    cocState.coc = some 8 ∧
    cocState.sph = none ∧
    cocState.on_reversal = true ∧
    bigRangeBar.close < cocState.coc.getD 0 ∧
    (identify cocState bigRangeBar).state.trend = some .UP ∧
    ¬(identify cocState bigRangeBar).state.trend = some .DOWN ∧
    (identify cocState bigRangeBar).events = [] := by
  refine ⟨rfl, rfl, rfl, rfl, ?_, rfl, ?_, rfl⟩
  · have h1 : cocState.coc.getD 0 = 8 := rfl
    have h2 : bigRangeBar.close = 6 := rfl
    rw [h1, h2]
    norm_num
  · intro h
    have hT : (identify cocState bigRangeBar).state.trend = some .UP := rfl
    rw [hT] at h
    simp at h

/-- C1 amended: the reversal fires only on a bar that does not make a new
tracked high (so the reversal-watch branch runs at all), with a truthy `coc`
and `close < coc` and no breakout; it then performs the §4.2 transition —
new `coc` is the tracked high, `high` and `sph` cleared, `low` seeded from
the bar, counter zeroed — and (with annotation recording off and the hook
registered) invokes `onReversal` with fifth argument the *new* CoCh level
(the broken tracked high) and sixth argument the old CoCh; symmetrically for
the DOWN trend. -/
theorem claim_C1_reversal (s : SwingState) (b : Bar) :
    (s.trend = some .UP → truthyQ s.coc = true → b.close < s.coc.getD 0 →
      ¬(truthyQ s.sph = true ∧ b.close > s.sph.getD 0) →
      ¬(truthyQ (preUp s b).high = true ∧ b.high > (preUp s b).high.getD 0) →
      s.plot = false → s.on_reversal = true →
      (identify s b).state.trend = some .DOWN ∧
      (identify s b).state.coc = (preUp s b).high ∧
      (identify s b).state.high = none ∧
      (identify s b).state.sph = none ∧
      (identify s b).state.low = some b.low ∧
      (identify s b).state.low_dt = some b.dt ∧
      (identify s b).state.bars_since = 0 ∧
      (identify s b).events =
        [.reversal s.symbol b.dt (some .DOWN) b.close ((preUp s b).high) s.coc] ∧
      (identify s b).err = none) ∧
    (s.trend = some .DOWN → truthyQ s.coc = true → b.close > s.coc.getD 0 →
      ¬(truthyQ s.spl = true ∧ b.close < s.spl.getD 0) →
      ¬(truthyQ (preDown s b).low = true ∧ b.low < (preDown s b).low.getD 0) →
      s.plot = false → s.on_reversal = true →
      (identify s b).state.trend = some .UP ∧
      (identify s b).state.coc = (preDown s b).low ∧
      (identify s b).state.low = none ∧
      (identify s b).state.spl = none ∧
      (identify s b).state.high = some b.high ∧
      (identify s b).state.high_dt = some b.dt ∧
      (identify s b).state.bars_since = 0 ∧
      (identify s b).events =
        [.reversal s.symbol b.dt (some .UP) b.close ((preDown s b).low) s.coc] ∧
      (identify s b).err = none) := by
  constructor
  · intro hU hc hcl hnb hnh hp hor
    rw [identify_up s b hU]
    unfold identifyUp
    dsimp only
    by_cases hsp : truthyQ s.sph = true
    · rw [if_pos hsp]
      have hnb' : ¬b.close > (upPendingUpdate s b).sph.getD 0 := by
        rw [upPendingUpdate_sph]
        exact fun hgt => hnb ⟨hsp, hgt⟩
      rw [if_neg hnb']
      have hpre : preUp s b = upPendingUpdate s b := by
        unfold preUp
        rw [if_pos hsp]
      rw [hpre] at hnh ⊢
      obtain ⟨e1, e2, e3, e4, e5, e6, e7, _, e9, e10⟩ :=
        upFormation_reversal_plot_off (upPendingUpdate s b) b hnh
          (by rw [upPendingUpdate_coc]; exact hc)
          (by rw [upPendingUpdate_coc]; exact hcl)
          (by rw [upPendingUpdate_plot]; exact hp)
      refine ⟨e1, e2, e3, e4, e5, e6, e7, ?_, e10⟩
      rw [e9]
      simp [upPendingUpdate_on_reversal, hor, upPendingUpdate_symbol, upPendingUpdate_coc]
    · rw [if_neg hsp]
      have hpre : preUp s b = s := by
        unfold preUp
        rw [if_neg hsp]
      rw [hpre] at hnh ⊢
      obtain ⟨e1, e2, e3, e4, e5, e6, e7, _, e9, e10⟩ :=
        upFormation_reversal_plot_off s b hnh hc hcl hp
      refine ⟨e1, e2, e3, e4, e5, e6, e7, ?_, e10⟩
      rw [e9]
      simp [hor]
  · intro hD hc hcl hnb hnl hp hor
    rw [identify_down s b hD]
    unfold identifyDown
    dsimp only
    by_cases hsp : truthyQ s.spl = true
    · rw [if_pos hsp]
      have hnb' : ¬b.close < (downPendingUpdate s b).spl.getD 0 := by
        rw [downPendingUpdate_spl]
        exact fun hgt => hnb ⟨hsp, hgt⟩
      rw [if_neg hnb']
      have hpre : preDown s b = downPendingUpdate s b := by
        unfold preDown
        rw [if_pos hsp]
      rw [hpre] at hnl ⊢
      obtain ⟨e1, e2, e3, e4, e5, e6, e7, _, e9, e10⟩ :=
        downFormation_reversal_plot_off (downPendingUpdate s b) b hnl
          (by rw [downPendingUpdate_coc]; exact hc)
          (by rw [downPendingUpdate_coc]; exact hcl)
          (by rw [downPendingUpdate_plot]; exact hp)
      refine ⟨e1, e2, e3, e4, e5, e6, e7, ?_, e10⟩
      rw [e9]
      simp [downPendingUpdate_on_reversal, hor, downPendingUpdate_symbol, downPendingUpdate_coc]
    · rw [if_neg hsp]
      have hpre : preDown s b = s := by
        unfold preDown
        rw [if_neg hsp]
      rw [hpre] at hnl ⊢
      obtain ⟨e1, e2, e3, e4, e5, e6, e7, _, e9, e10⟩ :=
        downFormation_reversal_plot_off s b hnl hc hcl hp
      refine ⟨e1, e2, e3, e4, e5, e6, e7, ?_, e10⟩
      rw [e9]
      simp [hor]

/-- C1 witness: the reversal scenario — trend UP with `coc = 8`, `high = 12`,
a quiet bar closing at 7.5: the engine switches to DOWN with `coc = 12`, and
the recorded `onReversal` invocation carries `(new coc 12, old coc 8)` as its
fifth and sixth arguments. -/
theorem claim_C1_witness :
    (identify cocState revBar).state.trend = some .DOWN ∧
    (identify cocState revBar).state.coc = (preUp cocState revBar).high ∧
    (identify cocState revBar).state.high = none ∧
    (identify cocState revBar).state.sph = none ∧
    (identify cocState revBar).state.low = some revBar.low ∧
    (identify cocState revBar).state.low_dt = some revBar.dt ∧
    (identify cocState revBar).state.bars_since = 0 ∧
    (identify cocState revBar).events =
      [.reversal cocState.symbol revBar.dt (some .DOWN) revBar.close
        ((preUp cocState revBar).high) cocState.coc] ∧
    (identify cocState revBar).err = none := by
  have hcl : revBar.close < cocState.coc.getD 0 := by
    have h1 : cocState.coc.getD 0 = 8 := rfl
    have h2 : revBar.close = 15 / 2 := rfl
    rw [h1, h2]
    norm_num
  have hnb : ¬(truthyQ cocState.sph = true ∧ revBar.close > cocState.sph.getD 0) := by
    intro h
    have : truthyQ cocState.sph = false := rfl
    rw [this] at h
    simp at h
  have hnh : ¬(truthyQ (preUp cocState revBar).high = true ∧
      revBar.high > (preUp cocState revBar).high.getD 0) := by
    intro h
    have h1 : (preUp cocState revBar).high.getD 0 = 12 := rfl
    have h2 : revBar.high = 11 := rfl
    have := h.2
    rw [h1, h2] at this
    norm_num at this
  exact (claim_C1_reversal cocState revBar).1 rfl rfl hcl hnb hnh rfl rfl


/-- C9 counterexample: with annotation recording on and no history bound, a
reversal bar raises the configuration error — but the engine state is *not*
left unchanged: the full reversal transition (trend flipped to DOWN) was
committed before the annotation lookup raised, and the hook never fired. -/
theorem claim_C9_counterexample :
    plotState.plot = true ∧
    plotState.df = none ∧
    plotState.trend = some .UP ∧
    (identify plotState revBar).err = some "DataFrame not found." ∧
    ¬(identify plotState revBar).state = plotState ∧
    (identify plotState revBar).state.trend = some .DOWN ∧
    (identify plotState revBar).events = [] := by
  refine ⟨rfl, rfl, rfl, by with_unfolding_all rfl, by with_unfolding_all decide,
    by with_unfolding_all rfl, by with_unfolding_all rfl⟩

/-- C9 amended: with annotation recording enabled but no bar history bound,
a non-suppressed breakout or a reversal raises the configuration error
`"DataFrame not found."` to the caller and the callback does not fire, but
the state mutations performed before the annotation request persist: a
breakout has already cleared the pivot, zeroed the counter and moved `coc`;
a reversal has already committed the full trend switch. -/
theorem claim_C9_annotation_error (s : SwingState) (b : Bar)
    (hplot : s.plot = true) (hdf : s.df = none) :
    (s.trend = some .UP → truthyQ s.sph = true → b.close > s.sph.getD 0 →
      ¬(truthyQ s.retrace_threshold = true ∧
        |((upPendingUpdate s b).low.getD 0 - s.sph.getD 0) / s.sph.getD 0| <
          s.retrace_threshold.getD 0) →
      (identify s b).err = some "DataFrame not found." ∧
      (identify s b).events = [] ∧
      (identify s b).state.sph = none ∧
      (identify s b).state.bars_since = 0 ∧
      (identify s b).state.coc = (upPendingUpdate s b).low) ∧
    (s.trend = some .UP → truthyQ s.coc = true → b.close < s.coc.getD 0 →
      ¬(truthyQ s.sph = true ∧ b.close > s.sph.getD 0) →
      ¬(truthyQ (preUp s b).high = true ∧ b.high > (preUp s b).high.getD 0) →
      (identify s b).err = some "DataFrame not found." ∧
      (identify s b).events = [] ∧
      (identify s b).state.trend = some .DOWN ∧
      (identify s b).state.coc = (preUp s b).high ∧
      (identify s b).state.bars_since = 0) ∧
    (s.trend = some .DOWN → truthyQ s.spl = true → b.close < s.spl.getD 0 →
      ¬(truthyQ s.retrace_threshold = true ∧
        ((downPendingUpdate s b).high.getD 0 - s.spl.getD 0) / s.spl.getD 0 <
          s.retrace_threshold.getD 0) →
      (identify s b).err = some "DataFrame not found." ∧
      (identify s b).events = [] ∧
      (identify s b).state.spl = none ∧
      (identify s b).state.bars_since = 0 ∧
      (identify s b).state.coc = (downPendingUpdate s b).high) ∧
    (s.trend = some .DOWN → truthyQ s.coc = true → b.close > s.coc.getD 0 →
      ¬(truthyQ s.spl = true ∧ b.close < s.spl.getD 0) →
      ¬(truthyQ (preDown s b).low = true ∧ b.low < (preDown s b).low.getD 0) →
      (identify s b).err = some "DataFrame not found." ∧
      (identify s b).events = [] ∧
      (identify s b).state.trend = some .UP ∧
      (identify s b).state.coc = (preDown s b).low ∧
      (identify s b).state.bars_since = 0) := by
  refine ⟨fun hU hsp hb hns => ?_, fun hU hc hcl hnb hnh => ?_,
    fun hD hsp hb hns => ?_, fun hD hc hcl hnb hnl => ?_⟩
  · rw [identify_up s b hU]
    unfold identifyUp
    rw [if_pos hsp]
    dsimp only
    have hb' : b.close > (upPendingUpdate s b).sph.getD 0 := by
      rw [upPendingUpdate_sph]
      exact hb
    rw [if_pos hb']
    have hns' : ¬(truthyQ (upPendingUpdate s b).retrace_threshold = true ∧
        |((upPendingUpdate s b).low.getD 0 - (upPendingUpdate s b).sph.getD 0) /
          (upPendingUpdate s b).sph.getD 0| <
          (upPendingUpdate s b).retrace_threshold.getD 0) := by
      rw [upPendingUpdate_sph, upPendingUpdate_retrace_threshold]
      exact hns
    rw [upBreakout_raises (upPendingUpdate s b) b
      (by rw [upPendingUpdate_plot]; exact hplot)
      (by rw [upPendingUpdate_df]; exact hdf) hns']
    exact ⟨rfl, rfl, rfl, rfl, rfl⟩
  · rw [identify_up s b hU]
    unfold identifyUp
    dsimp only
    by_cases hsp : truthyQ s.sph = true
    · rw [if_pos hsp]
      have hnb' : ¬b.close > (upPendingUpdate s b).sph.getD 0 := by
        rw [upPendingUpdate_sph]
        exact fun hgt => hnb ⟨hsp, hgt⟩
      rw [if_neg hnb']
      have hpre : preUp s b = upPendingUpdate s b := by
        unfold preUp
        rw [if_pos hsp]
      rw [hpre] at hnh ⊢
      obtain ⟨e1, e2, e3, e4, _, _, _, e8⟩ :=
        upFormation_reversal_raises (upPendingUpdate s b) b hnh
          (by rw [upPendingUpdate_coc]; exact hc)
          (by rw [upPendingUpdate_coc]; exact hcl)
          (by rw [upPendingUpdate_plot]; exact hplot)
          (by rw [upPendingUpdate_df]; exact hdf)
      exact ⟨e1, e2, e3, e4, e8⟩
    · rw [if_neg hsp]
      have hpre : preUp s b = s := by
        unfold preUp
        rw [if_neg hsp]
      rw [hpre] at hnh ⊢
      obtain ⟨e1, e2, e3, e4, _, _, _, e8⟩ :=
        upFormation_reversal_raises s b hnh hc hcl hplot hdf
      exact ⟨e1, e2, e3, e4, e8⟩
  · rw [identify_down s b hD]
    unfold identifyDown
    rw [if_pos hsp]
    dsimp only
    have hb' : b.close < (downPendingUpdate s b).spl.getD 0 := by
      rw [downPendingUpdate_spl]
      exact hb
    rw [if_pos hb']
    have hns' : ¬(truthyQ (downPendingUpdate s b).retrace_threshold = true ∧
        ((downPendingUpdate s b).high.getD 0 - (downPendingUpdate s b).spl.getD 0) /
          (downPendingUpdate s b).spl.getD 0 <
          (downPendingUpdate s b).retrace_threshold.getD 0) := by
      rw [downPendingUpdate_spl, downPendingUpdate_retrace_threshold]
      exact hns
    rw [downBreakout_raises (downPendingUpdate s b) b
      (by rw [downPendingUpdate_plot]; exact hplot)
      (by rw [downPendingUpdate_df]; exact hdf) hns']
    exact ⟨rfl, rfl, rfl, rfl, rfl⟩
  · rw [identify_down s b hD]
    unfold identifyDown
    dsimp only
    by_cases hsp : truthyQ s.spl = true
    · rw [if_pos hsp]
      have hnb' : ¬b.close < (downPendingUpdate s b).spl.getD 0 := by
        rw [downPendingUpdate_spl]
        exact fun hgt => hnb ⟨hsp, hgt⟩
      rw [if_neg hnb']
      have hpre : preDown s b = downPendingUpdate s b := by
        unfold preDown
        rw [if_pos hsp]
      rw [hpre] at hnl ⊢
      obtain ⟨e1, e2, e3, e4, _, _, _, e8⟩ :=
        downFormation_reversal_raises (downPendingUpdate s b) b hnl
          (by rw [downPendingUpdate_coc]; exact hc)
          (by rw [downPendingUpdate_coc]; exact hcl)
          (by rw [downPendingUpdate_plot]; exact hplot)
          (by rw [downPendingUpdate_df]; exact hdf)
      exact ⟨e1, e2, e3, e4, e8⟩
    · rw [if_neg hsp]
      have hpre : preDown s b = s := by
        unfold preDown
        rw [if_neg hsp]
      rw [hpre] at hnl ⊢
      obtain ⟨e1, e2, e3, e4, _, _, _, e8⟩ :=
        downFormation_reversal_raises s b hnl hc hcl hplot hdf
      exact ⟨e1, e2, e3, e4, e8⟩

/-- C9 witness: the reversal bar on the plotting-enabled state with no bound
history — the error is raised, no event is recorded, and the reversal is
committed. -/
theorem claim_C9_witness :
    (identify plotState revBar).err = some "DataFrame not found." ∧
    (identify plotState revBar).events = [] ∧
    (identify plotState revBar).state.trend = some .DOWN ∧
    (identify plotState revBar).state.coc = (preUp plotState revBar).high ∧
    (identify plotState revBar).state.bars_since = 0 := by
  have hcl : revBar.close < plotState.coc.getD 0 := by
    have h1 : plotState.coc.getD 0 = 8 := rfl
    have h2 : revBar.close = 15 / 2 := rfl
    rw [h1, h2]
    norm_num
  have hnb : ¬(truthyQ plotState.sph = true ∧ revBar.close > plotState.sph.getD 0) := by
    intro h
    have hh : truthyQ plotState.sph = false := rfl
    rw [hh] at h
    simp at h
  have hnh : ¬(truthyQ (preUp plotState revBar).high = true ∧
      revBar.high > (preUp plotState revBar).high.getD 0) := by
    intro h
    have h1 : (preUp plotState revBar).high.getD 0 = 12 := rfl
    have h2 : revBar.high = 11 := rfl
    have hx := h.2
    rw [h1, h2] at hx
    norm_num at hx
  exact (claim_C9_annotation_error plotState revBar rfl rfl).2.1 rfl rfl hcl hnb hnh

end SwingTrend
